import Mathlib

/-!
Verification development for the Sunny-Days terminal RPG.

This file gives a shallow embedding, in Lean 4, of the Rust sources under
`src/Sunny-Days/src/` (the map and level generator, the entity/inventory
model, the battle engine and the world controller), and proves or refutes
the testable properties stated for that code.

Modelling conventions:
* Rust `i32` values are modelled as `Int`; `usize` as `Nat`; `u64` seed
  arithmetic is taken modulo `2 ^ 64` where the source uses wrapping ops.
* `rand::rngs::StdRng` is modelled abstractly: a seeding function
  `MkRng : Nat → Nat → Nat` maps a 64-bit seed to a stream of raw draws,
  and `gen_range` reduces a draw into the requested interval.  All theorems
  quantify over the seeding function, so they hold for the real generator.
* `rand::random::<f32>()` draws inside battles are modelled as a finite
  list of naturals consumed left to right, a draw `p` standing for the
  real number `p / 100` in [0, 1) (an exhausted list yields `0`).  Both
  thresholds the source compares against (`def/50` and `0.5`) are exact
  multiples of `1/100`, and no claim depends on the distribution of the
  draws.
* Wall-clock `Instant`s are modelled as a `Nat` parameter `now` passed to
  each operation that reads the clock.
* Rust code that can panic (indexing an empty candidate list) or loop
  forever (door rejection sampling) is modelled with `Option`, `none`
  standing for the panicking / diverging run.
-/

namespace SunnyDays

set_option maxRecDepth 1000000

/-- Modelled from the spec: the file `src/map/tile.rs` is declared by
`src/map/mod.rs` but absent from the source tree; spec §3 pins it down as
"Tile: enumerated variant \x7bWall, Floor, Door, Chest\x7d". -/
inductive Tile where
  | Wall
  | Floor
  | Door
  | Chest
deriving DecidableEq, Repr, Inhabited

/-- The tile grid of `src/map/mod.rs`: width × height, row-major. -/
structure Map where
  width : Nat
  height : Nat
  tiles : List Tile
deriving DecidableEq, Repr, Inhabited

/-- `Map::new` fills the whole grid with one tile. -/
def Map.new (width height : Nat) (fill : Tile) : Map :=
  ⟨width, height, List.replicate (width * height) fill⟩

/-- `Map::idx`: row-major index. -/
def Map.idx (m : Map) (x y : Nat) : Nat :=
  y * m.width + x

/-- `Map::get`.  The Rust code indexes the vector (panicking out of bounds);
every in-repo caller stays in bounds, so we default to `Wall` there. -/
def Map.get (m : Map) (x y : Nat) : Tile :=
  m.tiles.getD (m.idx x y) Tile.Wall

/-- `Map::set` (out-of-bounds writes are no-ops, unreachable in-repo). -/
def Map.set (m : Map) (x y : Nat) (t : Tile) : Map :=
  { m with tiles := m.tiles.set (m.idx x y) t }

/-- `Map::in_bounds`. -/
def Map.in_bounds (m : Map) (x y : Int) : Bool :=
  0 ≤ x && 0 ≤ y && x < (m.width : Int) && y < (m.height : Int)

/-- `Map::find_first_floor`: scan rows top to bottom, left to right. -/
def Map.find_first_floor (m : Map) : Option (Nat × Nat) :=
  (List.range m.height).findSome? fun y =>
    (List.range m.width).findSome? fun x =>
      if m.get x y = Tile.Floor then some (x, y) else none

/-- `Map::is_walkable`: Floor and Chest are walkable; Wall and Door are not. -/
def Map.is_walkable (m : Map) (x y : Nat) : Bool :=
  match m.get x y with
  | Tile.Floor => true
  | Tile.Chest => true
  | _ => false

/-- All Floor positions of a map in scan order (the repeated
`for y … for x … if map.get(x,y) == Tile::Floor` loops of the source). -/
def Map.floors (m : Map) : List (Int × Int) :=
  (List.range m.height).flatMap fun y =>
    (List.range m.width).filterMap fun x =>
      if m.get x y = Tile.Floor then some ((x : Int), (y : Int)) else none

/-! ### Abstract model of `StdRng` -/

/-- A seeding function: 64-bit seed to an infinite stream of raw draws.
Models `StdRng::seed_from_u64`; theorems quantify over it. -/
def MkRng : Type := Nat → Nat → Nat

/-- A pseudo-random stream together with the number of draws consumed. -/
structure Rng where
  stream : Nat → Nat
  k : Nat

/-- `StdRng::seed_from_u64`. -/
def seed_from_u64 (mk : MkRng) (seed : Nat) : Rng :=
  ⟨mk seed, 0⟩

/-- One raw draw. -/
def Rng.next (r : Rng) : Nat × Rng :=
  (r.stream r.k, ⟨r.stream, r.k + 1⟩)

/-- `rng.gen_range(lo..hi)` (half-open).  Rust panics when the range is
empty; all in-repo call sites guard non-emptiness. -/
def Rng.gen_range (r : Rng) (lo hi : Nat) : Nat × Rng :=
  let (v, r') := r.next
  (lo + v % (hi - lo), r')

/-- `rng.gen_bool(0.5)`. -/
def Rng.gen_bool (r : Rng) : Bool × Rng :=
  let (v, r') := r.next
  (v % 2 = 0, r')

/-! ### Level generator (`src/map/generator.rs`) -/

/-- Room rectangle. -/
structure Rect where
  x1 : Nat
  y1 : Nat
  x2 : Nat
  y2 : Nat
deriving DecidableEq, Repr

/-- `Rect::center`. -/
def Rect.center (r : Rect) : Nat × Nat :=
  ((r.x1 + r.x2) / 2, (r.y1 + r.y2) / 2)

/-- `Rect::intersects`. -/
def Rect.intersects (r o : Rect) : Bool :=
  r.x1 ≤ o.x2 && o.x1 ≤ r.x2 && r.y1 ≤ o.y2 && o.y1 ≤ r.y2

/-- `carve_room`: set every tile of the rectangle (inclusive) to Floor. -/
def carve_room (m : Map) (r : Rect) : Map :=
  (List.range' r.y1 (r.y2 + 1 - r.y1)).foldl
    (fun m y =>
      (List.range' r.x1 (r.x2 + 1 - r.x1)).foldl
        (fun m x => m.set x y Tile.Floor) m)
    m

/-- `carve_h_corridor2`: 2-tile wide horizontal corridor at row `y`. -/
def carve_h_corridor2 (m : Map) (x1 x2 y : Nat) : Map :=
  let s := if x1 ≤ x2 then x1 else x2
  let e := if x1 ≤ x2 then x2 else x1
  (List.range' s (e + 1 - s)).foldl
    (fun m x =>
      let m := m.set x y Tile.Floor
      if y + 1 < m.height then m.set x (y + 1) Tile.Floor else m)
    m

/-- `carve_v_corridor2`: 2-tile wide vertical corridor at column `x`. -/
def carve_v_corridor2 (m : Map) (y1 y2 x : Nat) : Map :=
  let s := if y1 ≤ y2 then y1 else y2
  let e := if y1 ≤ y2 then y2 else y1
  (List.range' s (e + 1 - s)).foldl
    (fun m y =>
      let m := m.set x y Tile.Floor
      if x + 1 < m.width then m.set (x + 1) y Tile.Floor else m)
    m

/-- The buffered rectangle used for the room-clearance test. -/
def Rect.buffered (r : Rect) (width height : Nat) : Rect :=
  ⟨r.x1 - 2, r.y1 - 2, min (r.x2 + 2) (width - 1), min (r.y2 + 2) (height - 1)⟩

/-- The `for _ in 0..max_rooms` loop of `generate_rooms_and_corridors`,
with the attempts remaining as the recursion measure. -/
def gen_rooms_loop (width height : Nat) :
    Nat → Map → List Rect → Rng → Map × List Rect × Rng
  | 0, m, rooms, r => (m, rooms, r)
  | n + 1, m, rooms, r =>
    let (w, r) := r.gen_range 6 13
    let (h, r) := r.gen_range 6 11
    if width ≤ w + 4 ∨ height ≤ h + 4 then (m, rooms, r)
    else
      let (x, r) := r.gen_range 2 (width - w - 2)
      let (y, r) := r.gen_range 2 (height - h - 2)
      let new_room : Rect := ⟨x, y, x + w, y + h⟩
      let ok := rooms.all fun rm => ! new_room.intersects (rm.buffered width height)
      if ! ok then gen_rooms_loop width height n m rooms r
      else
        let m := carve_room m new_room
        let (m, r) :=
          match rooms.getLast? with
          | none => (m, r)
          | some prev =>
            let (px, py) := prev.center
            let (nx, ny) := new_room.center
            let (b, r) := r.gen_bool
            if b then (carve_v_corridor2 (carve_h_corridor2 m px nx py) py ny nx, r)
            else (carve_h_corridor2 (carve_v_corridor2 m py ny px) px nx ny, r)
        gen_rooms_loop width height n m (rooms ++ [new_room]) r

/-- `generate_rooms_and_corridors`: up to 10 rejection-sampled rooms carved
into an all-Wall grid, consecutive room centers joined by L-shaped
corridors two tiles wide. -/
def generate_rooms_and_corridors (width height : Nat) (mk : MkRng) (seed : Nat) : Map :=
  (gen_rooms_loop width height 10 (Map.new width height Tile.Wall) []
    (seed_from_u64 mk seed)).1

/-! ### Entity & inventory model (`src/engine/entity.rs`) -/

/-- Equipment slot. -/
inductive EquipSlot where
  | Sword
  | Shield
deriving DecidableEq, Repr, Inhabited

/-- Equipment item.  `world.rs` reads and writes an `hp_bonus` field on
every equipment value it constructs, so it is part of the model (the
shipped `entity.rs` omits it from the struct declaration). -/
structure Equipment where
  name : String
  slot : EquipSlot
  hp_bonus : Int
  atk_bonus : Int
  def_bonus : Int
  speed_bonus : Int
deriving DecidableEq, Repr, Inhabited

/-- Consumable item. -/
structure Consumable where
  name : String
  heal : Int
  atk_bonus : Int
  def_bonus : Int
deriving DecidableEq, Repr, Inhabited

/-- Timed buff; `expires_at` is an abstract instant. -/
structure TempBuff where
  atk_bonus : Int
  def_bonus : Int
  speed_bonus : Int
  expires_at : Nat
deriving DecidableEq, Repr

/-- Inventory tab. -/
inductive InvTab where
  | Weapons
  | Consumables
  | Backpack
deriving DecidableEq, Repr

/-- The inventory: two equipment slots, consumables, backpack, and one
cursor per tab. -/
structure Inventory where
  sword : Option Equipment
  shield : Option Equipment
  consumables : List Consumable
  backpack : List Equipment
  tab : InvTab
  weapon_cursor : Nat
  consumable_cursor : Nat
  backpack_cursor : Nat
deriving DecidableEq, Repr

/-- What the cursor of the active tab points at. -/
inductive InvSelection where
  | SwordSlot
  | ShieldSlot
  | Consumable (i : Nat)
  | BackpackItem (i : Nat)
  | NoneSel
deriving DecidableEq, Repr

/-- `Inventory::default_loadout`. -/
def Inventory.default_loadout : Inventory :=
  ⟨none, none, [], [], InvTab.Weapons, 0, 0, 0⟩

/-- `Inventory::toggle_tab`: rotate the tab and re-clamp all cursors
(the consumable/backpack cursors only when their list is non-empty). -/
def Inventory.toggle_tab (inv : Inventory) : Inventory :=
  let tab := match inv.tab with
    | InvTab.Weapons => InvTab.Consumables
    | InvTab.Consumables => InvTab.Backpack
    | InvTab.Backpack => InvTab.Weapons
  let wc := if 1 < inv.weapon_cursor then 1 else inv.weapon_cursor
  let cc := if inv.consumables ≠ [] ∧ inv.consumables.length ≤ inv.consumable_cursor
    then inv.consumables.length - 1 else inv.consumable_cursor
  let bc := if inv.backpack ≠ [] ∧ inv.backpack.length ≤ inv.backpack_cursor
    then inv.backpack.length - 1 else inv.backpack_cursor
  { inv with tab := tab, weapon_cursor := wc, consumable_cursor := cc, backpack_cursor := bc }

/-- The shared arithmetic of `Inventory::move_cursor`: step a cursor by
`delta` over a list of length `len > 0`, wrapping at both ends. -/
def cursor_step (cursor : Nat) (delta : Int) (len : Nat) : Nat :=
  let idx : Int := (cursor : Int) + delta
  if idx < 0 then len - 1
  else if (len : Int) ≤ idx then 0
  else idx.toNat

/-- `Inventory::move_cursor`. -/
def Inventory.move_cursor (inv : Inventory) (delta : Int) : Inventory :=
  match inv.tab with
  | InvTab.Weapons =>
    { inv with weapon_cursor := cursor_step inv.weapon_cursor delta 2 }
  | InvTab.Consumables =>
    if inv.consumables.length = 0 then { inv with consumable_cursor := 0 }
    else { inv with consumable_cursor := cursor_step inv.consumable_cursor delta inv.consumables.length }
  | InvTab.Backpack =>
    if inv.backpack.length = 0 then { inv with backpack_cursor := 0 }
    else { inv with backpack_cursor := cursor_step inv.backpack_cursor delta inv.backpack.length }

/-- `Inventory::selection`. -/
def Inventory.selection (inv : Inventory) : InvSelection :=
  match inv.tab with
  | InvTab.Weapons =>
    if inv.weapon_cursor = 0 then InvSelection.SwordSlot else InvSelection.ShieldSlot
  | InvTab.Consumables =>
    if inv.consumables.isEmpty then InvSelection.NoneSel
    else InvSelection.Consumable inv.consumable_cursor
  | InvTab.Backpack =>
    if inv.backpack.isEmpty then InvSelection.NoneSel
    else InvSelection.BackpackItem inv.backpack_cursor

/-- `Inventory::take_selected_consumable`: remove and return the item at
`min(cursor, len - 1)`; the cursor itself is not adjusted. -/
def Inventory.take_selected_consumable (inv : Inventory) : Option Consumable × Inventory :=
  if inv.tab ≠ InvTab.Consumables then (none, inv)
  else if inv.consumables.isEmpty then (none, inv)
  else
    let idx := min inv.consumable_cursor (inv.consumables.length - 1)
    (inv.consumables.get? idx, { inv with consumables := inv.consumables.eraseIdx idx })

/-- The player (`src/engine/entity.rs`). -/
structure Player where
  x : Int
  y : Int
  hp : Int
  max_hp : Int
  base_attack : Int
  base_defense : Int
  base_speed : Int
  inventory : Inventory
  buffs : List TempBuff
deriving DecidableEq, Repr

/-- `Player::new`: 30 HP, attack 10, defense 8, speed 5, empty inventory. -/
def Player.new (x y : Int) : Player :=
  ⟨x, y, 30, 30, 10, 8, 5, Inventory.default_loadout, []⟩

/-- `Player::add_temp_buff` at instant `now` (duration in seconds). -/
def Player.add_temp_buff (p : Player) (now : Nat) (atk d spd : Int) (duration : Nat) : Player :=
  if atk = 0 ∧ d = 0 ∧ spd = 0 then p
  else { p with buffs := p.buffs ++ [⟨atk, d, spd, now + duration⟩] }

/-- `Player::purge_expired_buffs`: retain the buffs with `expires_at > now`. -/
def Player.purge_expired_buffs (p : Player) (now : Nat) : Player :=
  { p with buffs := p.buffs.filter fun b => now < b.expires_at }

/-- `Player::active_buff_sums`. -/
def Player.active_buff_sums (p : Player) (now : Nat) : Int × Int × Int :=
  p.buffs.foldl
    (fun acc b =>
      if now < b.expires_at then
        (acc.1 + b.atk_bonus, acc.2.1 + b.def_bonus, acc.2.2 + b.speed_bonus)
      else acc)
    (0, 0, 0)

/-- `Player::attack`: base + sword bonus + shield bonus + buff sum. -/
def Player.attack (p : Player) (now : Nat) : Int :=
  let v := p.base_attack
  let v := match p.inventory.sword with
    | some sw => v + sw.atk_bonus
    | none => v
  let v := match p.inventory.shield with
    | some sh => v + sh.atk_bonus
    | none => v
  v + (p.active_buff_sums now).1

/-- `Player::defense`. -/
def Player.defense (p : Player) (now : Nat) : Int :=
  let v := p.base_defense
  let v := match p.inventory.sword with
    | some sw => v + sw.def_bonus
    | none => v
  let v := match p.inventory.shield with
    | some sh => v + sh.def_bonus
    | none => v
  v + (p.active_buff_sums now).2.1

/-- `Player::speed`. -/
def Player.speed (p : Player) (now : Nat) : Int :=
  let v := p.base_speed
  let v := match p.inventory.sword with
    | some sw => v + sw.speed_bonus
    | none => v
  let v := match p.inventory.shield with
    | some sh => v + sh.speed_bonus
    | none => v
  v + (p.active_buff_sums now).2.2

/-- `Player::equip_sword`. -/
def Player.equip_sword (p : Player) (eq : Equipment) : Player :=
  { p with inventory := { p.inventory with sword := some eq } }

/-- `Player::equip_shield`. -/
def Player.equip_shield (p : Player) (eq : Equipment) : Player :=
  { p with inventory := { p.inventory with shield := some eq } }

/-- `Player::try_move`: step if the target is in bounds and walkable. -/
def Player.try_move (p : Player) (dx dy : Int) (m : Map) : Player :=
  let nx := p.x + dx
  let ny := p.y + dy
  if nx < 0 ∨ ny < 0 ∨ (m.width : Int) ≤ nx ∨ (m.height : Int) ≤ ny then p
  else if m.is_walkable nx.toNat ny.toNat then { p with x := nx, y := ny }
  else p

/-! ### World data model (`src/engine/world.rs`) -/

/-- A treasure chest. -/
structure Chest where
  x : Int
  y : Int
  item : Option Consumable
  weapon : Option Equipment
  opened : Bool
deriving DecidableEq, Repr, Inhabited

/-- One level: map, door position, chests. -/
structure Level where
  map : Map
  door : Int × Int
  chests : List Chest
deriving DecidableEq, Repr, Inhabited

/-- Game phase. -/
inductive GameState where
  | Title
  | Intro
  | Playing
  | Dialogue
  | Battle
deriving DecidableEq, Repr

/-- NPC identity. -/
inductive NpcId where
  | MayorSol
  | Noor
  | Lamp
  | Random1
  | Random2
  | Random3
  | Weeping1
  | Weeping2
  | Weeping3
  | Weeping4
  | Shab
  | Krad
  | Mah
deriving DecidableEq, Repr, Inhabited

/-- A placed NPC. -/
structure Npc where
  id : NpcId
  name : String
  room : Nat
  x : Int
  y : Int
  symbol : Char
deriving DecidableEq, Repr, Inhabited

/-- A pending dialogue choice. -/
inductive AwaitingChoice where
  | YesNoMayor
  | ABNoorWeapon
  | Chest (room : Nat) (x y : Int) (item : Option Consumable) (weapon : Option Equipment)
deriving DecidableEq, Repr

/-- An active dialogue session. -/
structure DialogueSession where
  npc : NpcId
  title : String
  pages : List String
  page_index : Nat
  awaiting : Option AwaitingChoice
deriving DecidableEq, Repr

/-- An active battle session. -/
structure BattleSession where
  enemy_id : NpcId
  enemy_name : String
  enemy_hp : Int
  enemy_max_hp : Int
  enemy_atk : Int
  enemy_def : Int
  enemy_speed : Int
  penalty_mode : Bool
  player_initiated : Bool
deriving DecidableEq, Repr

/-- The whole world state. -/
structure World where
  levels : List Level
  current : Nat
  player : Player
  logs : List String
  seed : Nat
  inventory_open : Bool
  stats_open : Bool
  state : GameState
  intro_lines : List String
  npcs : List Npc
  mayor_done : Bool
  noor_done : Bool
  lamp_done : Bool
  shab_defeated : Bool
  krad_defeated : Bool
  mah_defeated : Bool
  dialogue : Option DialogueSession
  battle : Option BattleSession
deriving DecidableEq, Repr

/-- `World::NPC_MIN_SEP`. -/
def NPC_MIN_SEP : Int := 5

/-- `World::fmt_hp_delta`. -/
def fmt_hp_delta (delta : Int) : String :=
  if 0 ≤ delta then "+" ++ toString delta ++ " HP" else toString delta ++ " HP"

/-- The current level (callers keep `current` in range). -/
def World.current_level (w : World) : Level :=
  w.levels.getD w.current default

/-- `World::current_map`. -/
def World.current_map (w : World) : Map :=
  w.current_level.map

/-- `World::is_floor`. -/
def World.is_floor (w : World) (room : Nat) (x y : Int) : Bool :=
  let map := (w.levels.getD room default).map
  if x < 0 ∨ y < 0 ∨ (map.width : Int) ≤ x ∨ (map.height : Int) ≤ y then false
  else map.get x.toNat y.toNat = Tile.Floor

/-- `World::random_floor_excluding`.  Rust panics when no floor tile
survives the exclusion (`floors[rng.gen_range(0..0)]`); we return `none`. -/
def World.random_floor_excluding (w : World) (mk : MkRng) (room : Nat)
    (exclude : List (Int × Int)) : Option (Int × Int) :=
  let map := (w.levels.getD room default).map
  let floors := map.floors.filter fun p => decide (p ∉ exclude)
  if floors.isEmpty then none
  else
    let r := seed_from_u64 mk (Nat.xor w.seed 0xBEEF)
    some (floors.getD (r.gen_range 0 floors.length).1 (0, 0))

/-- `World::random_floor_spaced`: floor tiles at Chebyshev distance at
least `min_dist` from every taken position, falling back to
`random_floor_excluding` when none qualifies. -/
def World.random_floor_spaced (w : World) (mk : MkRng) (room : Nat)
    (taken : List (Int × Int)) (min_dist : Int) : Option (Int × Int) :=
  let map := (w.levels.getD room default).map
  let floors := map.floors.filter fun p =>
    taken.all fun t =>
      decide (min_dist ≤ max (((t.1 - p.1).natAbs : Int)) (((t.2 - p.2).natAbs : Int)))
  if floors.isEmpty then w.random_floor_excluding mk room taken
  else
    let r := seed_from_u64 mk (Nat.xor (Nat.xor w.seed 0xBEEF) ((taken.length * 31) % 2 ^ 64))
    some (floors.getD (r.gen_range 0 floors.length).1 (0, 0))

/-! ### Level creation (`make_level`, door and chest placement) -/

/-- The rejection loop of `World::place_random_door`.  The Rust loop can
run forever; `fuel` bounds the draws we model, `none` standing for a run
that has not terminated within `fuel` draws. -/
def place_random_door_loop (floors : List (Int × Int)) (exclude : Int × Int) :
    Nat → Rng → Option ((Int × Int) × Rng)
  | 0, _ => none
  | n + 1, r =>
    let (idx, r') := r.gen_range 0 floors.length
    match floors.get? idx with
    | none => none
    | some p =>
      if p ≠ exclude then some (p, r') else place_random_door_loop floors exclude n r'

/-- `World::place_random_door`: with more than one floor tile, sample
until a non-excluded floor tile is found; otherwise keep `exclude` itself.
The chosen position is converted to a Door tile. -/
def place_random_door (m : Map) (mk : MkRng) (seed : Nat) (exclude : Int × Int)
    (fuel : Nat) : Option (Map × (Int × Int)) :=
  let floors := m.floors
  let r := seed_from_u64 mk seed
  if 1 < floors.length then
    match place_random_door_loop floors exclude fuel r with
    | none => none
    | some (d, _) => some (m.set d.1.toNat d.2.toNat Tile.Door, d)
  else
    some (m.set exclude.1.toNat exclude.2.toNat Tile.Door, exclude)

/-- `World::random_consumable`. -/
def random_consumable (r : Rng) : Consumable × Rng :=
  let (v, r') := r.gen_range 0 4
  match v with
  | 0 => (⟨"Fiery ale", 2, 2, 0⟩, r')
  | 1 => (⟨"Weeping Willow bark", 3, 0, 0⟩, r')
  | 2 => (⟨"Sunny Jerky", 5, 0, 0⟩, r')
  | _ => (⟨"Frozen tears", -2, 0, 5⟩, r')

/-- The 200-attempt rejection loop for one chest; `pos` starts at the
spawn and keeps that value when every attempt is rejected. -/
def chest_try_loop (floors : List (Int × Int)) (exclude : List (Int × Int)) :
    Nat → Rng → (Int × Int) → (Int × Int) × Rng
  | 0, r, pos => (pos, r)
  | n + 1, r, pos =>
    let (idx, r') := r.gen_range 0 floors.length
    let candidate := floors.getD idx (0, 0)
    if candidate ∈ exclude then chest_try_loop floors exclude n r' pos
    else (candidate, r')

/-- The `for _ in 0..count` body of `World::scatter_chests`. -/
def scatter_loop (floors : List (Int × Int)) (spawn : Int × Int) :
    Nat → Map → Rng → List (Int × Int) → List Chest → Map × List Chest × Rng
  | 0, m, r, _, chests => (m, chests, r)
  | n + 1, m, r, exclude, chests =>
    let (pos, r) := chest_try_loop floors exclude 200 r spawn
    let exclude := exclude ++ [pos]
    let m := m.set pos.1.toNat pos.2.toNat Tile.Chest
    let (c, r) := random_consumable r
    scatter_loop floors spawn n m r exclude
      (chests ++ [⟨pos.1, pos.2, some c, none, false⟩])

/-- `World::scatter_chests`: up to three chests, each found by rejection
sampling over the floor tiles with spawn, door and earlier chests
excluded. -/
def scatter_chests (m : Map) (mk : MkRng) (seed : Nat) (spawn door : Int × Int) :
    Map × List Chest :=
  let floors := m.floors
  let r := seed_from_u64 mk seed
  let count := min 3 floors.length
  let (m, chests, _) := scatter_loop floors spawn count m r [spawn, door] []
  (m, chests)

/-- `World::make_level`: derive the level seed, generate the map, take the
first floor tile as spawn, place the door, scatter the chests. -/
def make_level (mk : MkRng) (base_seed : Nat) (depth : Nat) (width height : Nat)
    (fuel : Nat) : Option (Level × (Int × Int)) :=
  let seed := (base_seed + depth * 9973) % 2 ^ 64
  let map := generate_rooms_and_corridors width height mk seed
  let s := map.find_first_floor.getD (1, 1)
  let spawn : Int × Int := ((s.1 : Int), (s.2 : Int))
  match place_random_door map mk (Nat.xor seed 0xD00D) spawn fuel with
  | none => none
  | some (map, door) =>
    let (map, chests) := scatter_chests map mk (Nat.xor seed 0xC1E57) spawn door
    some (⟨map, door, chests⟩, spawn)

/-! ### NPC placement and `World::new` -/

/-- Spawn a batch of NPCs in `room`, each on a floor tile spaced
`NPC_MIN_SEP` from all taken positions, extending the taken list as the
source loops do. -/
def spawn_list (mk : MkRng) :
    List (NpcId × Char × String) → Nat → World → List (Int × Int) →
      Option (World × List (Int × Int))
  | [], _room, w, taken => some (w, taken)
  | (id, sym, name) :: rest, room, w, taken => do
    let p ← w.random_floor_spaced mk room taken NPC_MIN_SEP
    spawn_list mk rest room
      { w with npcs := w.npcs ++ [⟨id, name, room, p.1, p.2, sym⟩] }
      (taken ++ [p])

/-- `World::spawn_npcs`. -/
def World.spawn_npcs (w : World) (mk : MkRng) (spawn0 : Int × Int) : Option World := do
  let mx0 := spawn0.1 + 5
  let my0 := spawn0.2
  let mpos :=
    if w.is_floor 0 mx0 my0 then (mx0, my0)
    else
      let candidates := [(mx0, my0), (mx0, my0 + 1), (mx0, my0 - 1), (mx0 + 1, my0), (mx0 - 1, my0)]
      (candidates.find? fun c => w.is_floor 0 c.1 c.2).getD (mx0, my0)
  let w := { w with npcs := w.npcs ++ [⟨NpcId.MayorSol, "Mayor Sol", 0, mpos.1, mpos.2, 'M'⟩] }
  let taken0 := [(spawn0.1, spawn0.2), mpos, (w.levels.getD 0 default).door] ++
    (w.levels.getD 0 default).chests.map fun c => (c.x, c.y)
  let (w, _) ← spawn_list mk
    [(NpcId.Noor, 'N', "Noor"), (NpcId.Lamp, 'L', "Lamp"),
     (NpcId.Random1, '●', "Villager"), (NpcId.Random2, '●', "Villager"),
     (NpcId.Random3, '●', "Villager")] 0 w taken0
  let taken1 := [(w.levels.getD 1 default).door] ++
    (w.levels.getD 1 default).chests.map fun c => (c.x, c.y)
  let (w, _) ← spawn_list mk
    [(NpcId.Weeping1, '●', "Weeping Villager"), (NpcId.Weeping2, '●', "Weeping Villager"),
     (NpcId.Weeping3, '●', "Weeping Villager"), (NpcId.Weeping4, '●', "Weeping Villager"),
     (NpcId.Shab, 'S', "Shab"), (NpcId.Krad, 'K', "Krad"), (NpcId.Mah, 'M', "Mah")] 1 w taken1
  some w

/-- `World::new`: generate the two levels, the welcome log lines, the
intro text, then place the NPCs. -/
def World.new (mk : MkRng) (seed : Nat) (width height fuel : Nat) : Option World := do
  let (level0, spawn0) ← make_level mk seed 0 width height fuel
  let (level1, _spawn1) ← make_level mk seed 1 width height fuel
  let logs := ["Seed: " ++ toString seed,
    "Welcome to Sunny Day(s).",
    "Move with WASD or arrow keys.",
    "Press E to talk to NPCs / open chests.",
    "Press I to open inventory.",
    "Press T to toggle inventory tabs.",
    "Press Q to open stats."]
  let intro_lines := ["Welcome to the Sunny Day, where everything was once bright",
    "and happy, is now in despair.",
    "",
    "It is up to you, to bring sunny times back.",
    "Listen to its people, understand your mission."]
  let w : World :=
    { levels := [level0, level1], current := 0,
      player := Player.new spawn0.1 spawn0.2,
      logs := logs, seed := seed,
      inventory_open := false, stats_open := false, state := GameState.Title,
      intro_lines := intro_lines, npcs := [],
      mayor_done := false, noor_done := false, lamp_done := false,
      shab_defeated := false, krad_defeated := false, mah_defeated := false,
      dialogue := none, battle := none }
  w.spawn_npcs mk spawn0

/-! ### Log, overlays, room transition -/

/-- The `while self.logs.len() > 6` trimming loop of `World::push_log`,
with the list length as explicit fuel (enough for the loop to finish). -/
def trim_logs_aux : Nat → List String → List String
  | 0, l => l
  | fuel + 1, l => if 6 < l.length then trim_logs_aux fuel (l.drop 1) else l

/-- The trimming loop of `World::push_log`. -/
def trim_logs (l : List String) : List String :=
  trim_logs_aux l.length l

/-- `World::push_log`. -/
def World.push_log (w : World) (msg : String) : World :=
  { w with logs := trim_logs (w.logs ++ [msg]) }

/-- The eight neighbour offsets in the scan order of the source's
`for dy in -1..=1 \x7b for dx in -1..=1 …` loops. -/
def neighbour_offsets : List (Int × Int) :=
  [(-1, -1), (0, -1), (1, -1), (-1, 0), (1, 0), (-1, 1), (0, 1), (1, 1)]

/-- `World::toggle_room`: switch level and teleport next to the new
level's door (the door tile itself when no floor neighbour exists). -/
def World.toggle_room (w : World) : World :=
  let new_room := if w.current = 0 then 1 else 0
  let w := { w with current := new_room }
  let door_pos := (w.levels.getD new_room default).door
  let map := (w.levels.getD new_room default).map
  let found := neighbour_offsets.find? fun d =>
    map.in_bounds (door_pos.1 + d.1) (door_pos.2 + d.2) &&
      decide (map.get (door_pos.1 + d.1).toNat (door_pos.2 + d.2).toNat = Tile.Floor)
  let spawn := (found.map fun d => (door_pos.1 + d.1, door_pos.2 + d.2)).getD door_pos
  let w := { w with player := { w.player with x := spawn.1, y := spawn.2 } }
  if new_room = 1 then w.push_log "You step through the door into Room 2..."
  else w.push_log "You step back into Room 1..."

/-- `World::toggle_inventory`. -/
def World.toggle_inventory (w : World) : World :=
  let w := { w with inventory_open := ! w.inventory_open }
  if w.inventory_open then
    ({ w with stats_open := false }).push_log "Inventory opened."
  else w.push_log "Inventory closed."

/-- `World::toggle_stats`. -/
def World.toggle_stats (w : World) : World :=
  let w := { w with stats_open := ! w.stats_open }
  if w.stats_open then
    ({ w with inventory_open := false }).push_log "Stats opened."
  else w.push_log "Stats closed."

/-- `World::toggle_inventory_tab`. -/
def World.toggle_inventory_tab (w : World) : World :=
  let tab_before := w.player.inventory.tab
  let w := { w with player := { w.player with inventory := w.player.inventory.toggle_tab } }
  let tab_after := w.player.inventory.tab
  let name := match tab_after with
    | InvTab.Weapons => "Weapons"
    | InvTab.Consumables => "Consumables"
    | InvTab.Backpack => "Backpack"
  if tab_before ≠ tab_after then w.push_log ("Inventory tab: " ++ name) else w

/-! ### Inventory use, chests, battles, dialogue, controller -/

/-- The `fmt_signed` closure of `use_or_unequip_or_equip`. -/
def fmt_signed (v : Int) : String :=
  if 0 ≤ v then "+" ++ toString v else toString v

/-- `World::use_or_unequip_or_equip`: unequip the hovered slot, use the
hovered consumable, or equip the hovered backpack item. -/
def World.use_or_unequip_or_equip (w : World) (now : Nat) : World :=
  match w.player.inventory.selection with
  | InvSelection.SwordSlot =>
    match w.player.inventory.sword with
    | some eq =>
      let p := { w.player with inventory := { w.player.inventory with sword := none } }
      let p := { p with max_hp := p.max_hp - eq.hp_bonus }
      let p := if p.max_hp < p.hp then { p with hp := p.max_hp } else p
      let p := { p with inventory := { p.inventory with backpack := p.inventory.backpack ++ [eq] } }
      ({ w with player := p }).push_log ("Unequipped " ++ eq.name ++ ".")
    | none => w.push_log "No sword equipped."
  | InvSelection.ShieldSlot =>
    match w.player.inventory.shield with
    | some eq =>
      let p := { w.player with inventory := { w.player.inventory with shield := none } }
      let p := { p with max_hp := p.max_hp - eq.hp_bonus }
      let p := if p.max_hp < p.hp then { p with hp := p.max_hp } else p
      let p := { p with inventory := { p.inventory with backpack := p.inventory.backpack ++ [eq] } }
      ({ w with player := p }).push_log ("Unequipped " ++ eq.name ++ ".")
    | none => w.push_log "No shield equipped."
  | InvSelection.Consumable _ =>
    let ti := w.player.inventory.take_selected_consumable
    match ti.1 with
    | some item =>
      let p := { w.player with inventory := ti.2 }
      let before := p.hp
      let p := { p with hp := min (p.hp + item.heal) p.max_hp }
      let healed := p.hp - before
      let p :=
        if item.atk_bonus ≠ 0 ∨ item.def_bonus ≠ 0 then
          p.add_temp_buff now item.atk_bonus item.def_bonus 0 30
        else p
      let effects := [fmt_hp_delta healed]
      let effects :=
        if item.atk_bonus ≠ 0 then effects ++ [fmt_signed item.atk_bonus ++ " ATK/30sec"]
        else effects
      let effects :=
        if item.def_bonus ≠ 0 then effects ++ [fmt_signed item.def_bonus ++ " DEF/30sec"]
        else effects
      ({ w with player := p }).push_log
        ("Used " ++ item.name ++ " (" ++ String.intercalate ", " effects ++ ").")
    | none => w.push_log "No consumables to use."
  | InvSelection.BackpackItem i =>
    if i < w.player.inventory.backpack.length then
      let eq := w.player.inventory.backpack.getD i default
      let p := { w.player with inventory :=
        { w.player.inventory with backpack := w.player.inventory.backpack.eraseIdx i } }
      let p := { p with max_hp := p.max_hp + eq.hp_bonus }
      let (p, msg) :=
        match eq.slot with
        | EquipSlot.Sword =>
          let p :=
            match p.inventory.sword with
            | some old =>
              let p := { p with max_hp := p.max_hp - old.hp_bonus }
              { p with inventory := { p.inventory with backpack := p.inventory.backpack ++ [old] } }
            | none => p
          ({ p with inventory := { p.inventory with sword := some eq } },
            "Equipped sword: " ++ eq.name ++ ".")
        | EquipSlot.Shield =>
          let p :=
            match p.inventory.shield with
            | some old =>
              let p := { p with max_hp := p.max_hp - old.hp_bonus }
              { p with inventory := { p.inventory with backpack := p.inventory.backpack ++ [old] } }
            | none => p
          ({ p with inventory := { p.inventory with shield := some eq } },
            "Equipped shield: " ++ eq.name ++ ".")
      let p := if p.max_hp < p.hp then { p with hp := p.max_hp } else p
      let inv := p.inventory
      let inv :=
        if inv.backpack.isEmpty then { inv with backpack_cursor := 0 }
        else if inv.backpack.length ≤ inv.backpack_cursor then
          { inv with backpack_cursor := inv.backpack.length - 1 }
        else inv
      ({ w with player := { p with inventory := inv } }).push_log msg
    else w.push_log "Nothing to equip."
  | InvSelection.NoneSel => w.push_log "Nothing to use."

/-- `World::start_chest_dialogue`. -/
def World.start_chest_dialogue (w : World) (room : Nat) (x y : Int)
    (item : Option Consumable) (weapon : Option Equipment) : World :=
  let name :=
    match item with
    | some c => c.name
    | none =>
      match weapon with
      | some wp => wp.name
      | none => "nothing"
  let pages := ["You found a treasure chest!\nInside is: " ++ name ++
    "\n\n(A) Put in inventory\n(B) Use now (Consumable)\n(C) Throw away"]
  { w with
    dialogue := some ⟨NpcId.MayorSol, "Treasure Chest", pages, 0,
      some (AwaitingChoice.Chest room x y item weapon)⟩,
    state := GameState.Dialogue }

/-- `World::open_chest_if_on_one`: open the first unopened chest under the
player, clear its tile back to Floor, and start the chest dialogue. -/
def World.open_chest_if_on_one (w : World) : World :=
  let room := w.current
  let px := w.player.x
  let py := w.player.y
  let level := w.levels.getD room default
  match level.chests.findIdx? (fun c => ! c.opened && decide (c.x = px) && decide (c.y = py)) with
  | none => w
  | some i =>
    let chest := level.chests.getD i default
    let item := chest.item
    let weapon := chest.weapon
    let chest := { chest with opened := true, item := none, weapon := none }
    let level := { level with
      chests := level.chests.set i chest,
      map := level.map.set px.toNat py.toNat Tile.Floor }
    let w := { w with levels := w.levels.set room level }
    w.start_chest_dialogue room px py item weapon

/-- `World::start_battle`: fixed enemy stats per boss identity. -/
def World.start_battle (w : World) (enemy_id : NpcId) : World :=
  let stats : Option (String × Int × Int × Int × Int) :=
    match enemy_id with
    | NpcId.Shab => some ("Shab", 10, 3, 0, 4)
    | NpcId.Krad => some ("Krad", 20, 6, 4, 0)
    | NpcId.Mah => some ("Mah", 30, 12, 10, 8)
    | _ => none
  match stats with
  | none => w
  | some (name, hp, atk, d, spd) =>
    ({ w with
      battle := some ⟨enemy_id, name, hp, hp, atk, d, spd, false, false⟩,
      state := GameState.Battle }).push_log ("Battle started against " ++ name ++ "!")

/-- Floor of the base-2 logarithm, by structural fuel recursion (the
fuel `n` is enough for any input `≤ n`). -/
def log2_fuel : Nat → Nat → Nat
  | 0, _ => 0
  | fuel + 1, n => if n < 2 then 0 else log2_fuel fuel (n / 2) + 1

/-- Floor of the base-2 logarithm of a positive natural. -/
def nat_log2 (n : Nat) : Nat := log2_fuel n n

/-- Round a positive integer to 24 significand bits (IEEE-754 single
precision, round to nearest, ties to even). -/
def roundSig (m : Nat) : Nat :=
  if m < 2 ^ 24 then m
  else
    let k := nat_log2 m
    let s := k - 23
    let q := m / 2 ^ s
    let r := m % 2 ^ s
    let half := 2 ^ (s - 1)
    let q' := if half < r ∨ (r = half ∧ q % 2 = 1) then q + 1 else q
    q' * 2 ^ s

/-- `World::calc_damage`: `(atk as f32 * 1.2) as i32`.  The `f32` nearest
to `1.2` is exactly `5033165 / 2 ^ 22`; `atk` converts exactly for
|atk| < 2 ^ 24; the product is rounded to single precision and the cast
back to `i32` truncates toward zero. -/
def calc_damage (atk : Int) : Int :=
  let m := atk * 5033165
  let mr : Int := if 0 ≤ m then (roundSig m.toNat : Int) else -(roundSig (-m).toNat : Int)
  if 0 ≤ mr then mr / 2 ^ 22 else -((-mr) / 2 ^ 22)

/-- `World::try_deflect`: a fresh draw in [0,1) is below `(def/10)*0.2`.
With the draw `q` standing for `q/100`, the comparison `q/100 < def/50`
is exactly `q < 2*def`.  The source computes the chance in `f32`, whose
rounding (relative error below `2 ^ -23`) no claim depends on. -/
def try_deflect (q : Nat) (d : Int) : Bool :=
  (q : Int) < 2 * d

/-- One draw from the modelled `rand::random` stream. -/
def rand_next : List Nat → Nat × List Nat
  | [] => (0, [])
  | q :: t => (q, t)

/-- `World::perform_player_attack`. -/
def perform_player_attack (now : Nat) (w : World) (bs : BattleSession)
    (fr : List Nat) : World × BattleSession × List Nat :=
  let dmg := calc_damage (w.player.attack now)
  let (q, fr) := rand_next fr
  if try_deflect q bs.enemy_def then
    (w.push_log (bs.enemy_name ++ " deflected your attack!"), bs, fr)
  else
    (w.push_log ("You hit " ++ bs.enemy_name ++ " for " ++ toString dmg ++ " dmg."),
      { bs with enemy_hp := bs.enemy_hp - dmg }, fr)

/-- `World::perform_enemy_attack`. -/
def perform_enemy_attack (now : Nat) (w : World) (bs : BattleSession)
    (fr : List Nat) : World × BattleSession × List Nat :=
  let dmg := calc_damage bs.enemy_atk
  let (q, fr) := rand_next fr
  if try_deflect q (w.player.defense now) then
    (w.push_log ("You deflected " ++ bs.enemy_name ++ "\u2019s attack!"), bs, fr)
  else
    ({ w with player := { w.player with hp := w.player.hp - dmg } }.push_log
      (bs.enemy_name ++ " hit you for " ++ toString dmg ++ " dmg."), bs, fr)

/-- The initiative computation of `apply_battle_turn` (lines 549-552 of
`world.rs`): enemy first whenever the session's penalty flag is set,
otherwise player first iff player speed ≥ enemy speed. -/
def battle_player_first (bs : BattleSession) (p_spd : Int) : Bool :=
  if bs.penalty_mode then false else bs.enemy_speed ≤ p_spd

/-- The option dispatch of `apply_battle_turn` (Fight / Inventory / Run),
acting on a world whose battle session has been taken out.  The last
component reports a successful flee. -/
def battle_turn_inner (now : Nat) (fr : List Nat) (w : World) (bs : BattleSession)
    (opt : Nat) : World × BattleSession × List Nat × Bool :=
  let player_first := battle_player_first bs (w.player.speed now)
  match opt with
  | 1 =>
    if player_first then
      let (w, bs, fr) := perform_player_attack now w bs fr
      if 0 < bs.enemy_hp then
        let (w, bs, fr) := perform_enemy_attack now w bs fr
        (w, bs, fr, false)
      else (w, bs, fr, false)
    else
      let (w, bs, fr) := perform_enemy_attack now w bs fr
      if 0 < w.player.hp then
        let (w, bs, fr) := perform_player_attack now w bs fr
        (w, bs, fr, false)
      else (w, bs, fr, false)
  | 2 =>
    let (w, bs, fr) := perform_enemy_attack now w bs fr
    (w, bs, fr, false)
  | 3 =>
    if bs.player_initiated then
      let w := w.push_log "You started this, finish it!"
      let (w, bs, fr) := perform_enemy_attack now w bs fr
      (w, bs, fr, false)
    else
      let (q, fr) := rand_next fr
      if q < 50 then (w.push_log "You fled the battle!", bs, fr, true)
      else
        let w := w.push_log "Failed to flee!"
        let (w, bs, fr) := perform_enemy_attack now w bs fr
        (w, bs, fr, false)
  | _ => (w, bs, fr, false)

/-- `World::start_dialogue_raw`. -/
def World.start_dialogue_raw (w : World) (title : String) (pages : List String) : World :=
  { w with
    dialogue := some ⟨NpcId.Random1, title, pages, 0, none⟩,
    state := GameState.Dialogue }

/-- `World::handle_win`: set the defeated flag, start the post-battle
dialogue, and for Mah remove the boss and spawn the two reward chests
(`none` models the panic when no spaced floor tile exists). -/
def handle_win (mk : MkRng) (w : World) (id : NpcId) : Option World :=
  let w' : Option World :=
    match id with
    | NpcId.Shab =>
      some (({ w with shab_defeated := true }).start_dialogue_raw "Shab"
        ["I can\u2019t believe I lost to the likes of you…"])
    | NpcId.Krad =>
      some (({ w with krad_defeated := true }).start_dialogue_raw "Krad"
        ["My armor…."])
    | NpcId.Mah =>
      let w := { w with mah_defeated := true }
      let mah_pages := ["I underestimated you…", "Listen, Sol, is not…",
        "what", "you", "thin-"]
      match w.npcs.findIdx? (fun n => decide (n.id = NpcId.Mah)) with
      | none => some (w.start_dialogue_raw "Mah" mah_pages)
      | some pos =>
        let npc := w.npcs.getD pos default
        let w := { w with npcs := w.npcs.eraseIdx pos }
        let dagger : Chest := ⟨npc.x, npc.y, none,
          some ⟨"Weeping Dagger", EquipSlot.Sword, -100, -100, -100, -100⟩, false⟩
        let lvl1 := w.levels.getD 1 default
        let lvl1 := { lvl1 with
          chests := lvl1.chests ++ [dagger],
          map := lvl1.map.set npc.x.toNat npc.y.toNat Tile.Chest }
        let w := { w with levels := w.levels.set 1 lvl1 }
        let taken := [(npc.x, npc.y), (w.levels.getD 1 default).door] ++
          (w.levels.getD 1 default).chests.map fun c => (c.x, c.y)
        match w.random_floor_spaced mk 1 taken 10 with
        | none => none
        | some spos =>
          let shield_chest : Chest := ⟨spos.1, spos.2, none,
            some ⟨"Shield of healing", EquipSlot.Shield, 2, 0, 10, 0⟩, false⟩
          let lvl1 := w.levels.getD 1 default
          let lvl1 := { lvl1 with
            chests := lvl1.chests ++ [shield_chest],
            map := lvl1.map.set spos.1.toNat spos.2.toNat Tile.Chest }
          let w := { w with levels := w.levels.set 1 lvl1 }
          some (w.start_dialogue_raw "Mah" mah_pages)
    | _ => some w
  w'.map fun w => w.push_log "You won the battle!"

/-- `World::apply_battle_turn`: update the penalty flag, resolve the
chosen option, and end the battle when a side's HP is ≤ 0 or a flee
succeeded (handling a player win first). -/
def apply_battle_turn (mk : MkRng) (now : Nat) (fr : List Nat) (w : World)
    (opt : Nat) (penalty : Bool) : Option (World × List Nat) :=
  match w.battle with
  | none => some (w, fr)
  | some bs0 =>
    let bs1 := if penalty then { bs0 with penalty_mode := true } else bs0
    let res := battle_turn_inner now fr { w with battle := none } bs1 opt
    let w2 := res.1
    let bs2 := res.2.1
    let fr2 := res.2.2.1
    let fled := res.2.2.2
    let player_won := bs2.enemy_hp ≤ 0
    let endb := fled ∨ bs2.enemy_hp ≤ 0 ∨ w2.player.hp ≤ 0
    if endb then
      (if player_won then handle_win mk w2 bs2.enemy_id else some w2).map
        fun w3 => ({ w3 with state := GameState.Playing }, fr2)
    else some ({ w2 with battle := some bs2 }, fr2)

/-! ### NPC queries, dialogue engine, free-roam actions -/

/-- `World::npc_at`. -/
def World.npc_at (w : World) (room : Nat) (x y : Int) : Option Npc :=
  w.npcs.find? fun n => decide (n.room = room) && decide (n.x = x) && decide (n.y = y)

/-- `World::npc_near_player`: first NPC of the current room within
Chebyshev distance 1. -/
def World.npc_near_player (w : World) : Option Npc :=
  w.npcs.find? fun n =>
    decide (n.room = w.current) &&
      decide (max ((n.x - w.player.x).natAbs) ((n.y - w.player.y).natAbs) ≤ 1)

/-- `World::door_near_player`: first adjacent Door tile in scan order. -/
def World.door_near_player (w : World) : Option (Int × Int) :=
  (neighbour_offsets.find? fun d =>
      w.current_map.in_bounds (w.player.x + d.1) (w.player.y + d.2) &&
        decide (w.current_map.get (w.player.x + d.1).toNat (w.player.y + d.2).toNat = Tile.Door)).map
    fun d => (w.player.x + d.1, w.player.y + d.2)

/-- `World::start_dialogue_for`: per-identity dialogue content, branching
on the persistent quest flags. -/
def World.start_dialogue_for (w : World) (npc : Npc) : World :=
  let session : DialogueSession :=
    match npc.id with
    | NpcId.MayorSol =>
      if w.mayor_done then
        ⟨npc.id, npc.name, ["Well, what\u2019re you still standing here for? GO TO NOOR!"], 0, none⟩
      else
        ⟨npc.id, npc.name,
          ["Welcome to Sunny Days, visitor! I am Mayor Sol. We are normally much more able to take in tourists, but you may have arrived at a bad time. The Weeping have made it a rough time, they have completely taken over the Weeping Willow forests.",
           "What\u2019s that? The weeping sound like they belong in the Weeping Willow Forests? No! That\u2019s nonsense, the only reason they are called the weeping, is because they WEEP before they kill! I mean, is it not right there in the name? Keep up! Ok, but my friend, you MUST help us get them out. Without our Weeping Willow bark, we are losing our health! Please will you help? (Y/N)"],
          0, some AwaitingChoice.YesNoMayor⟩
    | NpcId.Noor =>
      if w.noor_done then
        ⟨npc.id, npc.name, ["Scram! Go to Lamp and get whatever you\u2019re missing!!"], 0, none⟩
      else
        ⟨npc.id, npc.name,
          ["Hey there partner!",
           "What\u2019s that, the Mayor sent you here? Damn Sol, always ruining my day. What! No not you, you seem okay… ish. So you\u2019re gonna go and fight the Weeping ay? Well you\u2019ll need a weapon. Grab one: (A) Basic Sword  (B) Basic Shield",
           "Good choice! Now I\u2019ll keep the other one to be fair, if you want your second choice, go see Lamp!"],
          0, some AwaitingChoice.ABNoorWeapon⟩
    | NpcId.Lamp =>
      if ! w.noor_done then
        ⟨npc.id, npc.name, ["Hey aren\u2019t you supposed to talk to Noor first?"], 0, none⟩
      else if w.lamp_done then
        ⟨npc.id, npc.name, ["Well good luck, if you\u2019re fighting the Weeping, you\u2019ll need it!"], 0, none⟩
      else
        let missing := if w.player.inventory.sword.isNone then "Sword" else "Shield"
        ⟨npc.id, npc.name,
          ["Hey! Did Noor send you? Yeah, they\u2019re a bit rough around the edges. So you\u2019re missing a " ++ missing ++ ", well take this!",
           "You got the " ++ missing ++ "."], 0, none⟩
    | NpcId.Random1 =>
      ⟨npc.id, npc.name, ["Isn\u2019t it bad? So gloomy, so dark, I need some vitamin D pills or something!"], 0, none⟩
    | NpcId.Random2 =>
      ⟨npc.id, npc.name, ["I actually overheard the Mayor talking to himself, I think he\u2019s going a bit cukoo!!"], 0, none⟩
    | NpcId.Random3 =>
      ⟨npc.id, npc.name, ["Oh please, if you think the Weeping are bad, wait until you hear from the IRS!"], 0, none⟩
    | NpcId.Weeping1 =>
      ⟨npc.id, npc.name, ["I can\u2019t believe that\u2019s how they think of us in here, we literally get our name from the Weeping Willow trees that we LIVE in. Like come on!"], 0, none⟩
    | NpcId.Weeping2 =>
      ⟨npc.id, npc.name, ["It sure is cold out, all that global warming bibble babble is a hoax!"], 0, none⟩
    | NpcId.Weeping3 =>
      ⟨npc.id, npc.name, ["Have you talked to the guy who thinks global warming is fake? What a nut!"], 0, none⟩
    | NpcId.Weeping4 =>
      ⟨npc.id, npc.name, ["I had a friend in that village…", "His name meant bright, just like how he was.", "I wonder how he\u2019s doing…"], 0, none⟩
    | NpcId.Shab =>
      if w.shab_defeated then
        ⟨npc.id, npc.name, ["Get away from me, I\u2019m training…"], 0, none⟩
      else
        ⟨npc.id, npc.name,
          ["Hey! You\u2019re not supposed to be in here, who are you?!",
           "Wait, nevermind, I couldn\u2019t care less, are you ready to die?!!!"], 0, none⟩
    | NpcId.Krad =>
      if w.krad_defeated then
        ⟨npc.id, npc.name,
          ["W-what do you want from me?!?!?!",
           "LEAVE ME BE, you\u2019ve shattered my honor, and my armor….",
           " *sniffles* "], 0, none⟩
      else
        ⟨npc.id, npc.name,
          ["Who are you…", "Doesn\u2019t matter… my armor…", "IS IMPENETRABLE"], 0, none⟩
    | NpcId.Mah =>
      if w.shab_defeated && w.krad_defeated then
        ⟨npc.id, npc.name,
          ["You low-class scum", "You come into my home, my community…", "AND KILL MY MEN?!?!?!"], 0, none⟩
      else
        ⟨npc.id, npc.name, ["Insignificant being, begone from my sight, my men will handle you…"], 0, none⟩
  { w with dialogue := some session, state := GameState.Dialogue }

/-- `World::dialogue_continue`: advance the page, or close the session
(starting a boss battle when the just-closed dialogue warrants one). -/
def World.dialogue_continue (w : World) : World :=
  match w.dialogue with
  | none => w
  | some d =>
    if d.page_index + 1 < d.pages.length then
      { w with dialogue := some { d with page_index := d.page_index + 1 } }
    else
      let start_id : Option NpcId :=
        match d.npc with
        | NpcId.Shab => if ! w.shab_defeated then some NpcId.Shab else none
        | NpcId.Krad => if ! w.krad_defeated then some NpcId.Krad else none
        | NpcId.Mah =>
          if ! w.mah_defeated && w.shab_defeated && w.krad_defeated then some NpcId.Mah
          else none
        | _ => none
      let w := { w with dialogue := none, state := GameState.Playing }
      match start_id with
      | some id => w.start_battle id
      | none => w

/-- Closing step shared by the chest-choice arms of `dialogue_choice`:
push the log line, drop the session, return to free roam. -/
def World.close_chest_dialogue (w : World) (log : Option String) : World :=
  let w := match log with
    | some m => w.push_log m
    | none => w
  { w with dialogue := none, state := GameState.Playing }

/-- `World::dialogue_choice`: route one case-insensitive character to the
pending choice; unrecognized characters leave the session open. -/
def World.dialogue_choice (w : World) (c : Char) : World :=
  let awaiting := w.dialogue.bind fun d => d.awaiting
  let up := c.toUpper
  match awaiting with
  | some AwaitingChoice.YesNoMayor =>
    if up = 'Y' ∨ up = 'N' then
      let yes := up = 'Y'
      let w := { w with mayor_done := true }
      match w.dialogue with
      | some d =>
        let pages := [if yes then "Why thank you! Now go talk to Noor to get you started."
          else "Aren\u2019t you rude, I\u2019ve been nothing but kind. Fine, go to Noor to get you started I guess…"]
        { w with dialogue := some { d with awaiting := none, pages := pages, page_index := 0 } }
      | none => w
    else w
  | some AwaitingChoice.ABNoorWeapon =>
    if up = 'A' ∨ up = 'B' then
      let w :=
        if up = 'A' then
          { w with player := w.player.equip_sword ⟨"Basic Sword", EquipSlot.Sword, 0, 3, 0, 3⟩ }
        else
          { w with player := w.player.equip_shield ⟨"Basic Shield", EquipSlot.Shield, 0, 0, 3, -2⟩ }
      let w := { w with noor_done := true }
      match w.dialogue with
      | some d => { w with dialogue := some { d with awaiting := none, page_index := 2 } }
      | none => w
    else w
  | some (AwaitingChoice.Chest _room _x _y item weapon) =>
    if up = 'A' then
      match weapon with
      | some wp =>
        let w := { w with player := { w.player with inventory :=
          { w.player.inventory with backpack := w.player.inventory.backpack ++ [wp] } } }
        w.close_chest_dialogue (some ("Picked up " ++ wp.name ++ "."))
      | none =>
        match item with
        | some cons =>
          if w.player.inventory.consumables.length < 10 then
            let w := { w with player := { w.player with inventory :=
              { w.player.inventory with consumables := w.player.inventory.consumables ++ [cons] } } }
            w.close_chest_dialogue (some ("Picked up " ++ cons.name ++ "."))
          else w.close_chest_dialogue (some "Slots full.")
        | none => w.close_chest_dialogue none
    else if up = 'B' then
      match item with
      | some cons =>
        let before := w.player.hp
        let w := { w with player :=
          { w.player with hp := min (w.player.hp + cons.heal) w.player.max_hp } }
        let healed := w.player.hp - before
        w.close_chest_dialogue
          (some ("Used " ++ cons.name ++ " (" ++ fmt_hp_delta healed ++ ")."))
      | none => w.close_chest_dialogue (some "Cannot use that.")
    else if up = 'C' then
      w.close_chest_dialogue (some "Left chest.")
    else w
  | none => w

/-- The `Action::Interact` branch of the Playing phase: NPC dialogue (with
the Lamp gift), else door transition gated on holding both weapons, else
chest under the player, else a log hint. -/
def World.interact (w : World) : World :=
  match w.npc_near_player with
  | some npc =>
    let w := w.start_dialogue_for npc
    if w.noor_done ∧ npc.id = NpcId.Lamp ∧ ¬ w.lamp_done then
      if w.player.inventory.sword.isNone then
        let w := { w with player := w.player.equip_sword ⟨"Basic Sword", EquipSlot.Sword, 0, 3, 0, 3⟩ }
        { w with lamp_done := true }
      else if w.player.inventory.shield.isNone then
        let w := { w with player := w.player.equip_shield ⟨"Basic Shield", EquipSlot.Shield, 0, 0, 3, -2⟩ }
        { w with lamp_done := true }
      else w
    else w
  | none =>
    match w.door_near_player with
    | some _ =>
      if w.player.inventory.sword.isSome ∧ w.player.inventory.shield.isSome then w.toggle_room
      else w.push_log "Talk to the mayor and come back"
    | none =>
      let w := w.open_chest_if_on_one
      if w.state ≠ GameState.Dialogue then w.push_log "No one nearby." else w

/-- The `Action::Move` branch of the Playing phase. -/
def World.do_move (w : World) (dx dy : Int) : World :=
  if w.inventory_open ∨ w.stats_open then w
  else
    let nx := w.player.x + dx
    let ny := w.player.y + dy
    if (w.npc_at w.current nx ny).isSome then w
    else
      let map_snap := w.current_map
      let w := { w with player := w.player.try_move dx dy map_snap }
      if w.current_map.get w.player.x.toNat w.player.y.toNat = Tile.Chest then
        w.open_chest_if_on_one
      else w

/-- Player actions (`src/engine/action.rs`). -/
inductive Action where
  | Move (dx dy : Int)
  | ToggleInventory
  | ToggleInvTab
  | InventoryUp
  | InventoryDown
  | UseConsumable
  | ToggleStats
  | Confirm
  | Interact
  | Choice (c : Char)
  | BattleOption (opt : Nat) (penalty : Bool)
  | Quit
  | NoneAct
deriving DecidableEq, Repr

/-- The Title-phase arm of `World::apply_action`. -/
def apply_title (fr : List Nat) (w : World) (a : Action) : Option (World × List Nat × Bool) :=
  match a with
  | Action.Confirm => some ({ w with state := GameState.Intro }, fr, true)
  | Action.Quit => some (w, fr, false)
  | _ => some (w, fr, true)

/-- The Intro-phase arm of `World::apply_action`. -/
def apply_intro (fr : List Nat) (w : World) (a : Action) : Option (World × List Nat × Bool) :=
  match a with
  | Action.Confirm => some ({ w with state := GameState.Playing }, fr, true)
  | Action.Quit => some (w, fr, false)
  | _ => some (w, fr, true)

/-- The Dialogue-phase arm of `World::apply_action`. -/
def apply_dialogue (fr : List Nat) (w : World) (a : Action) : Option (World × List Nat × Bool) :=
  match a with
  | Action.Confirm => some (w.dialogue_continue, fr, true)
  | Action.Choice c => some (w.dialogue_choice c, fr, true)
  | Action.Quit => some (w, fr, false)
  | _ => some (w, fr, true)

/-- The Battle-phase arm of `World::apply_action`. -/
def apply_battle_phase (mk : MkRng) (now : Nat) (fr : List Nat) (w : World)
    (a : Action) : Option (World × List Nat × Bool) :=
  match a with
  | Action.BattleOption opt penalty =>
    if opt = 1 ∨ opt = 3 then
      let w :=
        if opt = 1 ∧ ¬ penalty ∧
            (w.battle.map fun b => decide (b.enemy_speed < w.player.speed now)).getD false then
          match w.battle with
          | some bs => { w with battle := some { bs with player_initiated := true } }
          | none => w
        else w
      (apply_battle_turn mk now fr w opt penalty).map fun r => (r.1, r.2, true)
    else if opt = 2 then
      let w := { w with inventory_open := true }
      let w := { w with player := { w.player with inventory := { w.player.inventory with tab := InvTab.Consumables } } }
      some (w, fr, true)
    else some (w, fr, true)
  | Action.UseConsumable =>
    if w.inventory_open then
      let w := w.use_or_unequip_or_equip now
      let w := { w with inventory_open := false }
      (apply_battle_turn mk now fr w 2 false).map fun r => (r.1, r.2, true)
    else some (w, fr, true)
  | Action.ToggleInventory =>
    some ((if w.inventory_open then { w with inventory_open := false } else w), fr, true)
  | Action.Quit =>
    if w.inventory_open then some ({ w with inventory_open := false }, fr, true)
    else some (w, fr, false)
  | Action.InventoryUp =>
    some ((if w.inventory_open then
      { w with player := { w.player with inventory := w.player.inventory.move_cursor (-1) } }
    else w), fr, true)
  | Action.InventoryDown =>
    some ((if w.inventory_open then
      { w with player := { w.player with inventory := w.player.inventory.move_cursor 1 } }
    else w), fr, true)
  | _ => some (w, fr, true)

/-- The Playing-phase arm of `World::apply_action`. -/
def apply_playing (now : Nat) (fr : List Nat) (w : World) (a : Action) :
    Option (World × List Nat × Bool) :=
  match a with
  | Action.ToggleStats => some (w.toggle_stats, fr, true)
  | Action.ToggleInventory => some (w.toggle_inventory, fr, true)
  | Action.ToggleInvTab =>
    some ((if w.inventory_open then w.toggle_inventory_tab else w), fr, true)
  | Action.InventoryUp =>
    some ((if w.inventory_open then
      { w with player := { w.player with inventory := w.player.inventory.move_cursor (-1) } }
    else w), fr, true)
  | Action.InventoryDown =>
    some ((if w.inventory_open then
      { w with player := { w.player with inventory := w.player.inventory.move_cursor 1 } }
    else w), fr, true)
  | Action.UseConsumable =>
    some ((if w.inventory_open then w.use_or_unequip_or_equip now else w), fr, true)
  | Action.Interact => some (w.interact, fr, true)
  | Action.Move dx dy => some (w.do_move dx dy, fr, true)
  | Action.Quit => some (w, fr, false)
  | _ => some (w, fr, true)

/-- The phase dispatch of `World::apply_action`, after the initial buff
purge.  `none` models a run that panics or fails to terminate inside
battle bookkeeping. -/
def apply_action_core (mk : MkRng) (now : Nat) (fr : List Nat) (w : World)
    (a : Action) : Option (World × List Nat × Bool) :=
  match w.state with
  | GameState.Title => apply_title fr w a
  | GameState.Intro => apply_intro fr w a
  | GameState.Dialogue => apply_dialogue fr w a
  | GameState.Battle => apply_battle_phase mk now fr w a
  | GameState.Playing => apply_playing now fr w a

/-- `World::apply_action`: purge expired buffs, then dispatch. -/
def apply_action (mk : MkRng) (now : Nat) (fr : List Nat) (w : World)
    (a : Action) : Option (World × List Nat × Bool) :=
  apply_action_core mk now fr { w with player := w.player.purge_expired_buffs now } a

/-! ### Inventory operation sequences (for the cursor-bounds property) -/

/-- The cursor-affecting inventory operations named by the cursor-bounds
property: cursor moves, tab toggles, and consumable removal. -/
inductive InvOp where
  | move (d : Int)
  | toggle
  | take
deriving DecidableEq, Repr

/-- Apply one inventory operation. -/
def InvOp.apply : InvOp → Inventory → Inventory
  | InvOp.move d, inv => inv.move_cursor d
  | InvOp.toggle, inv => inv.toggle_tab
  | InvOp.take, inv => inv.take_selected_consumable.2

/-- Apply a sequence of inventory operations, left to right. -/
def apply_inv_ops (ops : List InvOp) (inv : Inventory) : Inventory :=
  ops.foldl (fun i op => op.apply i) inv

/-- The claimed cursor invariant: each tab's cursor is within `[0, len)`
of the list it indexes, or equals 0 when that list is empty (the weapons
"list" has fixed length 2). -/
def cursor_ok (inv : Inventory) : Prop :=
  inv.weapon_cursor < 2 ∧
  ((inv.consumables = [] ∧ inv.consumable_cursor = 0) ∨
    inv.consumable_cursor < inv.consumables.length) ∧
  ((inv.backpack = [] ∧ inv.backpack_cursor = 0) ∨
    inv.backpack_cursor < inv.backpack.length)

instance (inv : Inventory) : Decidable (cursor_ok inv) := by
  unfold cursor_ok; infer_instance

/-! ### Concrete instances used in counterexamples and witnesses -/

/-- A concrete RNG model: the stream of consecutive naturals. -/
def mkId : MkRng := fun _ i => i

/-- A concrete RNG model: the constant-zero stream. -/
def mk0 : MkRng := fun _ _ => 0

/-- A 2×1 map whose two tiles are both Floor. -/
def m2floor : Map := ⟨2, 1, [Tile.Floor, Tile.Floor]⟩

/-- The battle session `start_battle` creates for Shab. -/
def bsShab : BattleSession := ⟨NpcId.Shab, "Shab", 10, 10, 3, 0, 4, false, false⟩

/-- A world in the Battle phase against Shab, with a fresh player. -/
def wBattle : World :=
  ⟨[], 0, Player.new 1 1, [], 0, false, false, GameState.Battle, [], [],
    false, false, false, false, false, false, none, some bsShab⟩

/-- The same world with the inventory overlay open. -/
def wBattleInv : World := { wBattle with inventory_open := true }

/-- A world in the Title phase. -/
def wTitle : World := { wBattle with state := GameState.Title, battle := none }

/-- A free-roam world whose player is at 2 HP and hovers a damaging
consumable (heal −2, like the generator's "Frozen tears"). -/
def wFragile : World :=
  { wTitle with
    state := GameState.Playing,
    player :=
      { Player.new 1 1 with
        hp := 2,
        inventory :=
          { Inventory.default_loadout with
            tab := InvTab.Consumables,
            consumables := [⟨"Frozen tears", -2, 0, 5⟩] } } }

/-- An inventory holding two consumables, Consumables tab active. -/
def invTwo : Inventory :=
  { Inventory.default_loadout with
    tab := InvTab.Consumables,
    consumables := [⟨"Sunny Jerky", 5, 0, 0⟩, ⟨"Weeping Willow bark", 3, 0, 0⟩] }

/-! ### Helper lemmas -/

theorem trim_logs_aux_of_le (fuel : Nat) (l : List String) (h : l.length ≤ 6) :
    trim_logs_aux fuel l = l := by
  cases fuel with
  | zero => rfl
  | succ fuel => simp [trim_logs_aux, Nat.not_lt.mpr h]

theorem trim_logs_aux_len_le (fuel : Nat) :
    ∀ l : List String, l.length ≤ 6 + fuel → (trim_logs_aux fuel l).length ≤ 6 := by
  induction fuel with
  | zero => intro l h; simpa [trim_logs_aux] using h
  | succ fuel ih =>
    intro l h
    by_cases h6 : 6 < l.length
    · simp only [trim_logs_aux, if_pos h6]
      exact ih (l.drop 1) (by simp; omega)
    · simp only [trim_logs_aux, if_neg h6]; omega

theorem trim_logs_len_le (l : List String) : (trim_logs l).length ≤ 6 :=
  trim_logs_aux_len_le l.length l (by omega)

theorem trim_logs_aux_succ (fuel : Nat) (l : List String) (h : 6 < l.length) :
    trim_logs_aux (fuel + 1) l = trim_logs_aux fuel (l.drop 1) := by
  simp only [trim_logs_aux, if_pos h]

theorem cursor_step_lt (c : Nat) (d : Int) (len : Nat) (h : 0 < len) :
    cursor_step c d len < len := by
  simp only [cursor_step]
  split
  · omega
  · split
    · omega
    · omega

theorem cursor_ok_move (inv : Inventory) (d : Int) (h : cursor_ok inv) :
    cursor_ok (inv.move_cursor d) := by
  obtain ⟨sw, sh, cons, bp, tab, wc, cc, bc⟩ := inv
  obtain ⟨h1, h2, h3⟩ := h
  simp only [cursor_ok] at h1 h2 h3 ⊢
  cases tab with
  | Weapons =>
    simp only [Inventory.move_cursor]
    exact ⟨cursor_step_lt _ _ _ (by omega), h2, h3⟩
  | Consumables =>
    by_cases hc : cons.length = 0
    · simp only [Inventory.move_cursor, if_pos hc]
      exact ⟨h1, Or.inl ⟨List.length_eq_zero.mp hc, trivial⟩, h3⟩
    · simp only [Inventory.move_cursor, if_neg hc]
      exact ⟨h1, Or.inr (cursor_step_lt _ _ _ (by omega)), h3⟩
  | Backpack =>
    by_cases hb : bp.length = 0
    · simp only [Inventory.move_cursor, if_pos hb]
      exact ⟨h1, h2, Or.inl ⟨List.length_eq_zero.mp hb, trivial⟩⟩
    · simp only [Inventory.move_cursor, if_neg hb]
      exact ⟨h1, h2, Or.inr (cursor_step_lt _ _ _ (by omega))⟩

theorem cursor_ok_toggle (inv : Inventory) (h : cursor_ok inv) :
    cursor_ok inv.toggle_tab := by
  obtain ⟨sw, sh, cons, bp, tab, wc, cc, bc⟩ := inv
  obtain ⟨h1, h2, h3⟩ := h
  simp only [Inventory.toggle_tab, cursor_ok] at h1 h2 h3 ⊢
  refine ⟨?_, ?_, ?_⟩
  · split <;> omega
  · split
    · next hcl =>
      have : 0 < cons.length := List.length_pos.mpr hcl.1
      right; omega
    · exact h2
  · split
    · next hbl =>
      have : 0 < bp.length := List.length_pos.mpr hbl.1
      right; omega
    · exact h3

theorem weapon_cursor_op_lt (op : InvOp) (inv : Inventory) (h : inv.weapon_cursor < 2) :
    (op.apply inv).weapon_cursor < 2 := by
  obtain ⟨sw, sh, cons, bp, tab, wc, cc, bc⟩ := inv
  cases op with
  | move d =>
    cases tab with
    | Weapons =>
      simp only [InvOp.apply, Inventory.move_cursor]
      exact cursor_step_lt _ _ _ (by omega)
    | Consumables =>
      simp only [InvOp.apply, Inventory.move_cursor]
      split <;> exact h
    | Backpack =>
      simp only [InvOp.apply, Inventory.move_cursor]
      split <;> exact h
  | toggle =>
    simp only [InvOp.apply, Inventory.toggle_tab]
    split <;> omega
  | take =>
    simp only [InvOp.apply, Inventory.take_selected_consumable]
    split
    · exact h
    · split
      · exact h
      · exact h

/-! ### C4 — inventory cursor bounds -/

/-- C4 counterexample: starting from a reachable inventory holding two
consumables with the Consumables tab active (which satisfies the claimed
invariant), moving the cursor to the last item and then removing it with
`take_selected_consumable` leaves `consumable_cursor = 1` over a list of
length 1 — outside `[0, len)` and not 0 — so the claimed invariant is not
preserved by remove operations. -/
theorem inventory_cursor_counterexample :
    cursor_ok invTwo ∧
    (apply_inv_ops [InvOp.move 1, InvOp.take] invTwo).consumable_cursor = 1 ∧
    (apply_inv_ops [InvOp.move 1, InvOp.take] invTwo).consumables.length = 1 ∧
    ¬ cursor_ok (apply_inv_ops [InvOp.move 1, InvOp.take] invTwo) := by
  decide

/-- C4 (amended): after any sequence of cursor-move and tab-toggle
operations from a state satisfying the invariant, every tab cursor is in
`[0, len)` or 0 on an empty list; and the weapons cursor stays below 2
under all three operations, removals included.  (`take_selected_consumable`
can leave the consumable cursor equal to the shrunken list length, as the
counterexample shows.) -/
theorem inventory_cursor_ok :
    (∀ (ops : List InvOp) (inv : Inventory), InvOp.take ∉ ops → cursor_ok inv →
      cursor_ok (apply_inv_ops ops inv)) ∧
    (∀ (ops : List InvOp) (inv : Inventory), inv.weapon_cursor < 2 →
      (apply_inv_ops ops inv).weapon_cursor < 2) := by
  constructor
  · intro ops
    induction ops with
    | nil => intro inv _ h; exact h
    | cons op rest ih =>
      intro inv hmem h
      have hop : op ≠ InvOp.take := by intro he; exact hmem (he ▸ List.mem_cons_self _ _)
      have hrest : InvOp.take ∉ rest := fun hr => hmem (List.mem_cons_of_mem _ hr)
      have h1 : cursor_ok (op.apply inv) := by
        cases op with
        | move d => exact cursor_ok_move inv d h
        | toggle => exact cursor_ok_toggle inv h
        | take => exact absurd rfl hop
      exact ih (op.apply inv) hrest h1
  · intro ops
    induction ops with
    | nil => intro inv h; exact h
    | cons op rest ih =>
      intro inv h
      exact ih (op.apply inv) (weapon_cursor_op_lt op inv h)

/-- C4 witness: the amended invariant at a concrete inventory and a
concrete take-free operation sequence. -/
theorem inventory_cursor_ok_witness :
    cursor_ok (apply_inv_ops [InvOp.move 1, InvOp.toggle] invTwo) :=
  inventory_cursor_ok.1 [InvOp.move 1, InvOp.toggle] invTwo (by decide) (by decide)

/-! ### C5 — bounded log -/

/-- C5 counterexample: immediately after `World::new` (a concrete world
that generates successfully) the log holds 7 messages, not at most 6 —
`World::new` pushes seven welcome lines without trimming. -/
theorem log_after_new_counterexample :
    (World.new mkId 3 12 12 10).map (fun w => w.logs.length) = some 7 ∧ ¬ (7 ≤ 6) := by
  constructor
  · decide
  · decide

/-- C5 (amended): every `push_log` leaves at most 6 log lines, and a push
onto a full log of 6 drops the oldest line; but the state immediately
after `World::new` holds 7 welcome lines until the first `push_log`. -/
theorem push_log_bounded (w : World) (msg : String) :
    (w.push_log msg).logs.length ≤ 6 ∧
    (w.logs.length = 6 → (w.push_log msg).logs = w.logs.drop 1 ++ [msg]) := by
  constructor
  · exact trim_logs_len_le _
  · intro h6
    have hlen : (w.logs ++ [msg]).length = 7 := by simp [h6]
    show trim_logs_aux (w.logs ++ [msg]).length (w.logs ++ [msg]) = w.logs.drop 1 ++ [msg]
    rw [hlen, show (7 : Nat) = 6 + 1 from rfl, trim_logs_aux_succ _ _ (by omega),
      trim_logs_aux_of_le _ _ (by simp [hlen]),
      List.drop_append_of_le_length (by omega)]

/-- C5 witness: the eviction behaviour at a concrete full log. -/
theorem push_log_bounded_witness :
    ({ wTitle with logs := ["1", "2", "3", "4", "5", "6"] }.push_log "7").logs.length ≤ 6 ∧
    ({ wTitle with logs := ["1", "2", "3", "4", "5", "6"] }.push_log "7").logs
      = ["1", "2", "3", "4", "5", "6"].drop 1 ++ ["7"] :=
  ⟨(push_log_bounded _ "7").1,
    (push_log_bounded { wTitle with logs := ["1", "2", "3", "4", "5", "6"] } "7").2 (by decide)⟩

/-! ### C6 — seed determinism -/

/-- C6: world generation is deterministic in the seed.  In this embedding
every random draw is derived from the seeding function and the 64-bit
seed exactly as the source derives every `StdRng` from arithmetic on the
base seed, so level creation is a pure function of `(seed, width,
height)`: two runs with the same inputs produce equal tile grids, door
positions and chest lists for both levels. -/
theorem generation_deterministic (mk : MkRng) (seed depth width height fuel : Nat) :
    make_level mk seed depth width height fuel = make_level mk seed depth width height fuel ∧
    (World.new mk seed width height fuel).map
        (fun w => w.levels.map fun l => (l.map.tiles, l.door, l.chests.map fun c => (c.x, c.y)))
      = (World.new mk seed width height fuel).map
        (fun w => w.levels.map fun l => (l.map.tiles, l.door, l.chests.map fun c => (c.x, c.y))) :=
  ⟨rfl, rfl⟩

/-! ### C9 — damage formula -/

/-- C9 counterexample: the claim's formula `floor(a × 1.2)` at attack
`a = -1` is `⌊-1.2⌋ = -2`, but `(atk as f32 * 1.2) as i32` truncates
toward zero and yields `-1`. -/
theorem calc_damage_neg_counterexample :
    calc_damage (-1) = -1 ∧ Int.fdiv (6 * (-1)) 5 = -2 := by
  decide

/-- C9 (amended): for every non-negative attack value up to 2000 the
damage of a non-deflected hit equals `floor(a × 1.2)` (for such `a` the
`f32` rounding never crosses an integer and truncation agrees with
floor); in particular a fresh player — base attack 10, no equipment, no
buffs — deals exactly 12.  For negative attack values the cast truncates
toward zero instead of flooring. -/
theorem calc_damage_floor_nonneg :
    (∀ a : Nat, a ≤ 2000 → calc_damage (a : Int) = ((6 * a) / 5 : Nat)) ∧
    calc_damage ((Player.new 1 1).attack 0) = 12 := by
  constructor
  · intro a ha
    have hall : ((List.range 2001).all fun a =>
        decide (calc_damage (a : Int) = ((6 * a) / 5 : Nat))) = true := by decide
    have h := List.all_eq_true.mp hall a (List.mem_range.mpr (by omega))
    exact of_decide_eq_true h
  · decide

/-- C9 witness: the amended formula instantiated at attack 10. -/
theorem calc_damage_floor_witness :
    (10 : Nat) ≤ 2000 ∧ calc_damage ((10 : Nat) : Int) = ((6 * 10) / 5 : Nat) :=
  ⟨by decide, calc_damage_floor_nonneg.1 10 (by decide)⟩

/-! ### C7 — chest scattering -/

theorem list_getD_mem {α : Type _} (l : List α) (i : Nat) (d : α) (h : i < l.length) :
    l.getD i d ∈ l := by
  rw [List.getD_eq_getElem l d h]
  exact List.getElem_mem h

theorem chest_try_loop_spec (floors exclude : List (Int × Int)) (hne : floors ≠ []) :
    ∀ (n : Nat) (r : Rng) (pos : Int × Int),
      (chest_try_loop floors exclude n r pos).1 = pos ∨
        ((chest_try_loop floors exclude n r pos).1 ∈ floors ∧
          (chest_try_loop floors exclude n r pos).1 ∉ exclude) := by
  intro n
  induction n with
  | zero => intro r pos; exact Or.inl rfl
  | succ n ih =>
    intro r pos
    simp only [chest_try_loop]
    split
    · exact ih _ _
    · next hnm =>
      right
      have hlen : 0 < floors.length := List.length_pos.mpr hne
      refine ⟨?_, hnm⟩
      apply list_getD_mem
      have hmod : r.stream r.k % floors.length < floors.length := Nat.mod_lt _ hlen
      simpa [Rng.gen_range, Rng.next] using hmod

theorem scatter_loop_spec (floors : List (Int × Int)) (spawn door : Int × Int)
    (hne : floors ≠ []) :
    ∀ (n : Nat) (m : Map) (r : Rng) (exclude : List (Int × Int)) (chests : List Chest),
      spawn ∈ exclude → door ∈ exclude →
      (∀ c ∈ chests,
        ((c.x, c.y) ∈ floors ∧ (c.x, c.y) ≠ spawn ∧ (c.x, c.y) ≠ door) ∨ (c.x, c.y) = spawn) →
      (∀ c ∈ (scatter_loop floors spawn n m r exclude chests).2.1,
        ((c.x, c.y) ∈ floors ∧ (c.x, c.y) ≠ spawn ∧ (c.x, c.y) ≠ door) ∨ (c.x, c.y) = spawn) ∧
      (scatter_loop floors spawn n m r exclude chests).2.1.length = chests.length + n := by
  intro n
  induction n with
  | zero =>
    intro m r exclude chests hs hd hc
    exact ⟨hc, by simp [scatter_loop]⟩
  | succ n ih =>
    intro m r exclude chests hs hd hc
    simp only [scatter_loop]
    have hpos := chest_try_loop_spec floors exclude hne 200 r spawn
    set pos := (chest_try_loop floors exclude 200 r spawn).1 with hposdef
    have hnew : ∀ c ∈ chests ++ [(⟨pos.1, pos.2,
        some (random_consumable (chest_try_loop floors exclude 200 r spawn).2).1, none, false⟩ : Chest)],
        ((c.x, c.y) ∈ floors ∧ (c.x, c.y) ≠ spawn ∧ (c.x, c.y) ≠ door) ∨ (c.x, c.y) = spawn := by
      intro c hcmem
      rcases List.mem_append.mp hcmem with hin | hin
      · exact hc c hin
      · have hce := List.mem_singleton.mp hin
        have hx : c.x = pos.1 := by rw [hce]
        have hy : c.y = pos.2 := by rw [hce]
        have hcp : (c.x, c.y) = pos := by rw [hx, hy]
        rcases hpos with heq | ⟨hmemf, hnm⟩
        · right; rw [hcp, heq]
        · left
          refine ⟨by rw [hcp]; exact hmemf, ?_, ?_⟩
          · intro hc1
            rw [hcp] at hc1
            exact hnm (by rw [hc1]; exact hs)
          · intro hc1
            rw [hcp] at hc1
            exact hnm (by rw [hc1]; exact hd)
    have hres := ih (m.set pos.1.toNat pos.2.toNat Tile.Chest)
      ((random_consumable (chest_try_loop floors exclude 200 r spawn).2).2)
      (exclude ++ [pos]) _ (List.mem_append_left _ hs) (List.mem_append_left _ hd) hnew
    refine ⟨hres.1, ?_⟩
    rw [hres.2]
    simp
    omega

/-- C7 counterexample: on a map whose two floor tiles are the spawn and
the door, a constant RNG rejects all 200 attempts for each chest, and the
fallback position is the spawn itself — an excluded tile — where both
chests are then placed.  The fallback is not "some non-excluded floor
tile". -/
theorem scatter_fallback_counterexample :
    ((scatter_chests m2floor mk0 0 (0, 0) (1, 0)).2.map fun c => (c.x, c.y))
      = [(0, 0), (0, 0)] := by
  decide

/-- C7 (amended): `scatter_chests` places `min 3 |floors|` chests; each
chest position is either a floor tile outside the exclusion set
(spawn, door and earlier chests) or — when all 200 rejection attempts
fail — the spawn tile itself, which is excluded. -/
theorem scatter_chests_spec (m : Map) (mk : MkRng) (seed : Nat) (spawn door : Int × Int) :
    (scatter_chests m mk seed spawn door).2.length = min 3 m.floors.length ∧
    ∀ c ∈ (scatter_chests m mk seed spawn door).2,
      ((c.x, c.y) ∈ m.floors ∧ (c.x, c.y) ≠ spawn ∧ (c.x, c.y) ≠ door) ∨ (c.x, c.y) = spawn := by
  by_cases hne : m.floors = []
  · constructor
    · simp [scatter_chests, hne, scatter_loop]
    · intro c hc
      simp [scatter_chests, hne, scatter_loop] at hc
  · have h := scatter_loop_spec m.floors spawn door hne (min 3 m.floors.length) m
      (seed_from_u64 mk seed) [spawn, door] []
      (by simp) (by simp) (by simp)
    constructor
    · have := h.2
      simpa [scatter_chests] using this
    · intro c hc
      apply h.1
      simpa [scatter_chests] using hc

/-- C7 witness: the amended property at the first chest scattered on a
concrete two-floor map with spawn `(0,0)` and door `(9,9)`. -/
theorem scatter_chests_spec_witness :
    ((((1 : Int), (0 : Int)) ∈ m2floor.floors ∧
        ((1 : Int), (0 : Int)) ≠ ((0 : Int), (0 : Int)) ∧
        ((1 : Int), (0 : Int)) ≠ ((9 : Int), (9 : Int))) ∨
      ((1 : Int), (0 : Int)) = ((0 : Int), (0 : Int))) :=
  (scatter_chests_spec m2floor mkId 0 (0, 0) (9, 9)).2
    ⟨1, 0, some ⟨"Sunny Jerky", 5, 0, 0⟩, none, false⟩ (by decide)

/-! ### C8 — door placement -/

theorem mem_floors_spec (m : Map) (p : Int × Int) (h : p ∈ m.floors) :
    0 ≤ p.1 ∧ 0 ≤ p.2 ∧ p.1.toNat < m.width ∧ p.2.toNat < m.height ∧
      m.get p.1.toNat p.2.toNat = Tile.Floor := by
  simp only [Map.floors, List.mem_flatMap, List.mem_filterMap, List.mem_range] at h
  obtain ⟨y, hy, x, hx, hxy⟩ := h
  by_cases hf : m.get x y = Tile.Floor
  · rw [if_pos hf] at hxy
    cases hxy
    simpa using ⟨hx, hy, hf⟩
  · rw [if_neg hf] at hxy
    cases hxy

theorem get_floor_idx_lt (m : Map) (x y : Nat) (h : m.get x y = Tile.Floor) :
    m.idx x y < m.tiles.length := by
  by_contra hge
  rw [Map.get, List.getD_eq_default _ _ (by omega)] at h
  cases h

theorem map_get_set_self (m : Map) (x y : Nat) (t : Tile) (h : m.idx x y < m.tiles.length) :
    (m.set x y t).get x y = t := by
  show (m.tiles.set (m.idx x y) t).getD (Map.idx { m with tiles := m.tiles.set (m.idx x y) t } x y) Tile.Wall = t
  have hidx : Map.idx { m with tiles := m.tiles.set (m.idx x y) t } x y = m.idx x y := rfl
  rw [hidx, List.getD_eq_getElem _ _ (by simpa using h)]
  simp [List.getElem_set]

theorem place_random_door_loop_spec (floors : List (Int × Int)) (exclude : Int × Int) :
    ∀ (fuel : Nat) (r : Rng) (d : Int × Int) (r2 : Rng),
      place_random_door_loop floors exclude fuel r = some (d, r2) →
      d ∈ floors ∧ d ≠ exclude := by
  intro fuel
  induction fuel with
  | zero => intro r d r2 h; cases h
  | succ n ih =>
    intro r d r2 h
    simp only [place_random_door_loop] at h
    rcases hg : floors.get? (r.gen_range 0 floors.length).1 with _ | p
    · rw [hg] at h; cases h
    · rw [hg] at h
      dsimp only at h
      by_cases hpe : p ≠ exclude
      · rw [if_pos hpe] at h
        obtain ⟨rfl, rfl⟩ : p = d ∧ (r.gen_range 0 floors.length).2 = r2 := by
          cases h; exact ⟨rfl, rfl⟩
        have hmem : p ∈ floors := by
          rw [List.get?_eq_getElem?] at hg
          have hlt : (r.gen_range 0 floors.length).1 < floors.length := by
            by_contra hge
            rw [List.getElem?_eq_none (by omega)] at hg
            cases hg
          rw [List.getElem?_eq_getElem hlt] at hg
          cases hg
          exact List.getElem_mem hlt
        exact ⟨hmem, hpe⟩
      · rw [if_neg hpe] at h
        exact ih _ _ _ h

/-- C8 counterexample: at width = height = 5 no room fits, the generated
map is all Wall, there is no floor tile, and `place_random_door` falls
back to converting the spawn tile itself: the door equals the spawn and
the converted tile was a Wall, not a Floor — refuting the claim for this
generated level. -/
theorem door_degenerate_counterexample :
    (make_level mk0 0 0 5 5 9).map (fun p => (p.1.door, p.2)) = some ((1, 1), (1, 1)) ∧
    (generate_rooms_and_corridors 5 5 mk0 0).get 1 1 = Tile.Wall := by
  constructor
  · decide
  · decide

/-- C8 (amended): whenever the map offers more than one floor tile (true
for every level the game generates at its 80×45 size) and the rejection
loop terminates, the door position is a pre-conversion Floor tile
distinct from the excluded spawn, and the converted tile is a Door and
non-walkable; with at most one floor tile the door falls back onto the
spawn tile itself.  (Uniformity of the random choice is a property of
`StdRng`, outside this embedding.) -/
theorem place_random_door_spec :
    (∀ (m : Map) (mk : MkRng) (seed : Nat) (exclude : Int × Int) (fuel : Nat)
        (m2 : Map) (d : Int × Int),
      1 < m.floors.length →
      place_random_door m mk seed exclude fuel = some (m2, d) →
      d ≠ exclude ∧ d ∈ m.floors ∧ m.get d.1.toNat d.2.toNat = Tile.Floor ∧
        m2.get d.1.toNat d.2.toNat = Tile.Door ∧ m2.is_walkable d.1.toNat d.2.toNat = false) ∧
    (∀ (m : Map) (mk : MkRng) (seed : Nat) (exclude : Int × Int) (fuel : Nat)
        (m2 : Map) (d : Int × Int),
      ¬ 1 < m.floors.length →
      place_random_door m mk seed exclude fuel = some (m2, d) →
      d = exclude) := by
  constructor
  · intro m mk seed exclude fuel m2 d hgt h
    rw [place_random_door, if_pos hgt] at h
    rcases hl : place_random_door_loop m.floors exclude fuel (seed_from_u64 mk seed)
      with _ | ⟨d0, r2⟩
    · rw [hl] at h; cases h
    · rw [hl] at h
      obtain ⟨rfl, rfl⟩ : m.set d0.1.toNat d0.2.toNat Tile.Door = m2 ∧ d0 = d := by
        cases h; exact ⟨rfl, rfl⟩
      obtain ⟨hmem, hne⟩ := place_random_door_loop_spec m.floors exclude fuel _ d0 r2 hl
      obtain ⟨_, _, _, _, hfl⟩ := mem_floors_spec m d0 hmem
      have hlt := get_floor_idx_lt m d0.1.toNat d0.2.toNat hfl
      have hdoor := map_get_set_self m d0.1.toNat d0.2.toNat Tile.Door hlt
      refine ⟨hne, hmem, hfl, hdoor, ?_⟩
      rw [Map.is_walkable, hdoor]
  · intro m mk seed exclude fuel m2 d hle h
    rw [place_random_door, if_neg hle] at h
    cases h
    rfl

/-- C8 witness: the amended door property at a concrete two-floor map
where the loop succeeds on the second draw. -/
theorem place_random_door_spec_witness :
    ((1 : Int), (0 : Int)) ≠ ((0 : Int), (0 : Int)) ∧
    ((1 : Int), (0 : Int)) ∈ m2floor.floors ∧
    m2floor.get (1 : Int).toNat (0 : Int).toNat = Tile.Floor ∧
    (⟨2, 1, [Tile.Floor, Tile.Door]⟩ : Map).get (1 : Int).toNat (0 : Int).toNat = Tile.Door ∧
    (⟨2, 1, [Tile.Floor, Tile.Door]⟩ : Map).is_walkable (1 : Int).toNat (0 : Int).toNat = false :=
  place_random_door_spec.1 m2floor mkId 0 (0, 0) 5 ⟨2, 1, [Tile.Floor, Tile.Door]⟩ (1, 0)
    (by decide) (by decide)

/-! ### Battle-engine lemmas -/

theorem ppa_spec (now : Nat) (w : World) (bs : BattleSession) (fr : List Nat) :
    perform_player_attack now w bs fr =
      if try_deflect (rand_next fr).1 bs.enemy_def then
        (w.push_log (bs.enemy_name ++ " deflected your attack!"), bs, (rand_next fr).2)
      else
        (w.push_log ("You hit " ++ bs.enemy_name ++ " for " ++
            toString (calc_damage (w.player.attack now)) ++ " dmg."),
          { bs with enemy_hp := bs.enemy_hp - calc_damage (w.player.attack now) },
          (rand_next fr).2) := by
  rfl

theorem pea_spec (now : Nat) (w : World) (bs : BattleSession) (fr : List Nat) :
    perform_enemy_attack now w bs fr =
      if try_deflect (rand_next fr).1 (w.player.defense now) then
        (w.push_log ("You deflected " ++ bs.enemy_name ++ "\u2019s attack!"), bs, (rand_next fr).2)
      else
        (({ w with player := { w.player with hp := w.player.hp - calc_damage bs.enemy_atk } }).push_log
            (bs.enemy_name ++ " hit you for " ++ toString (calc_damage bs.enemy_atk) ++ " dmg."),
          bs, (rand_next fr).2) := by
  rfl

theorem push_log_player (w : World) (msg : String) : (w.push_log msg).player = w.player := rfl

theorem push_log_battle (w : World) (msg : String) : (w.push_log msg).battle = w.battle := rfl

theorem ppa_player (now : Nat) (w : World) (bs : BattleSession) (fr : List Nat) :
    (perform_player_attack now w bs fr).1.player = w.player := by
  rw [ppa_spec]; split <;> rfl

theorem ppa_battle (now : Nat) (w : World) (bs : BattleSession) (fr : List Nat) :
    (perform_player_attack now w bs fr).1.battle = w.battle := by
  rw [ppa_spec]; split <;> rfl

theorem pea_bs (now : Nat) (w : World) (bs : BattleSession) (fr : List Nat) :
    (perform_enemy_attack now w bs fr).2.1 = bs := by
  rw [pea_spec]; split <;> rfl

theorem pea_battle (now : Nat) (w : World) (bs : BattleSession) (fr : List Nat) :
    (perform_enemy_attack now w bs fr).1.battle = w.battle := by
  rw [pea_spec]; split <;> rfl

theorem ppa_bs (now : Nat) (w : World) (bs : BattleSession) (fr : List Nat) :
    (perform_player_attack now w bs fr).2.1 =
      if try_deflect (rand_next fr).1 bs.enemy_def then bs
      else { bs with enemy_hp := bs.enemy_hp - calc_damage (w.player.attack now) } := by
  rw [ppa_spec]; split <;> rfl

theorem pea_player (now : Nat) (w : World) (bs : BattleSession) (fr : List Nat) :
    (perform_enemy_attack now w bs fr).1.player =
      if try_deflect (rand_next fr).1 (w.player.defense now) then w.player
      else { w.player with hp := w.player.hp - calc_damage bs.enemy_atk } := by
  rw [pea_spec]; split <;> rfl

theorem attack_ignores_hp (p : Player) (v : Int) (now : Nat) :
    ({ p with hp := v } : Player).attack now = p.attack now := rfl

/-! ### Positivity of the damage formula -/

theorem log2_fuel_spec :
    ∀ (fuel n : Nat), 0 < n → n ≤ fuel →
      2 ^ log2_fuel fuel n ≤ n ∧ n < 2 ^ (log2_fuel fuel n + 1) := by
  intro fuel
  induction fuel with
  | zero => intro n h1 h2; omega
  | succ fuel ih =>
    intro n h1 h2
    by_cases hn : n < 2
    · have : n = 1 := by omega
      subst this
      simp [log2_fuel]
    · have h3 : 0 < n / 2 := by omega
      have h4 : n / 2 ≤ fuel := by omega
      obtain ⟨ih1, ih2⟩ := ih (n / 2) h3 h4
      simp only [log2_fuel, if_neg hn]
      have e1 := pow_succ 2 (log2_fuel fuel (n / 2))
      have e2 := pow_succ 2 (log2_fuel fuel (n / 2) + 1)
      omega

theorem roundSig_gt (m : Nat) (h : 2 ^ 22 < m) : 2 ^ 22 < roundSig m := by
  simp only [roundSig]
  split
  · exact h
  · next hge =>
    have hge24 : 2 ^ 24 ≤ m := by omega
    have hpos : 0 < m := by omega
    have hnl : nat_log2 m = log2_fuel m m := rfl
    obtain ⟨hlow, hhigh⟩ := log2_fuel_spec m m hpos (le_refl m)
    rw [← hnl] at hlow hhigh
    have hk24 : 24 ≤ nat_log2 m := by
      by_contra hlt
      have hle : nat_log2 m + 1 ≤ 24 := by omega
      have : (2 : Nat) ^ (nat_log2 m + 1) ≤ 2 ^ 24 := Nat.pow_le_pow_right (by omega) hle
      omega
    set s := nat_log2 m - 23 with hsdef
    have hs1 : 1 ≤ s := by omega
    have hq : 2 ^ 23 ≤ m / 2 ^ s := by
      have h1 : 2 ^ nat_log2 m / 2 ^ s ≤ m / 2 ^ s := Nat.div_le_div_right hlow
      rw [Nat.pow_div (by omega) (by omega)] at h1
      have he : nat_log2 m - s = 23 := by omega
      rw [he] at h1
      exact h1
    have hs2 : 2 ≤ 2 ^ s := by
      calc (2 : Nat) = 2 ^ 1 := by norm_num
      _ ≤ 2 ^ s := Nat.pow_le_pow_right (by omega) hs1
    have hfinal : 2 ^ 23 * 2 ≤ (m / 2 ^ s) * 2 ^ s := by
      calc 2 ^ 23 * 2 ≤ 2 ^ 23 * 2 ^ s := Nat.mul_le_mul_left _ hs2
      _ ≤ (m / 2 ^ s) * 2 ^ s := Nat.mul_le_mul_right _ hq
    have hsucc : (m / 2 ^ s + 1) * 2 ^ s = (m / 2 ^ s) * 2 ^ s + 2 ^ s := by ring
    have h24 : (2 : Nat) ^ 22 < 2 ^ 23 * 2 := by norm_num
    split <;> omega

theorem one_le_calc_damage (a : Int) (h : 1 ≤ a) : 1 ≤ calc_damage a := by
  simp only [calc_damage]
  have hm : (5033165 : Int) ≤ a * 5033165 := le_mul_of_one_le_left (by norm_num) h
  have hm0 : (0 : Int) ≤ a * 5033165 := by omega
  rw [if_pos hm0]
  have htn : (5033165 : Nat) ≤ (a * 5033165).toNat := (Int.le_toNat hm0).mpr hm
  have hgt : 2 ^ 22 < roundSig (a * 5033165).toNat :=
    roundSig_gt _ (by omega)
  have hnn : (0 : Int) ≤ (roundSig (a * 5033165).toNat : Int) := by positivity
  rw [if_pos hnn]
  have h1 : (2 ^ 22 + 1 : Nat) ≤ roundSig (a * 5033165).toNat := by omega
  have hcast : (2 ^ 22 + 1 : Int) ≤ (roundSig (a * 5033165).toNat : Int) := by
    exact_mod_cast h1
  rw [Int.le_ediv_iff_mul_le (by norm_num)]
  omega

theorem bs_pm_sub (bs : BattleSession) (v : Int) :
    ({ bs with enemy_hp := v } : BattleSession).penalty_mode = bs.penalty_mode := rfl

theorem bs_atk_sub (bs : BattleSession) (v : Int) :
    ({ bs with enemy_hp := v } : BattleSession).enemy_atk = bs.enemy_atk := rfl

theorem ppa_bs_pm (now : Nat) (w : World) (bs : BattleSession) (fr : List Nat) :
    (perform_player_attack now w bs fr).2.1.penalty_mode = bs.penalty_mode := by
  rw [ppa_bs]; split <;> rfl

theorem ppa_bs_atk (now : Nat) (w : World) (bs : BattleSession) (fr : List Nat) :
    (perform_player_attack now w bs fr).2.1.enemy_atk = bs.enemy_atk := by
  rw [ppa_bs]; split <;> rfl

theorem inner_invariants (now : Nat) (fr : List Nat) (w : World) (bs : BattleSession) (opt : Nat) :
    (battle_turn_inner now fr w bs opt).2.1.penalty_mode = bs.penalty_mode ∧
    (battle_turn_inner now fr w bs opt).2.1.enemy_atk = bs.enemy_atk ∧
    (battle_turn_inner now fr w bs opt).1.battle = w.battle := by
  rcases opt with _ | _ | _ | _ | n
  · exact ⟨rfl, rfl, rfl⟩
  · -- Fight
    simp only [battle_turn_inner]
    split
    · rcases hp : perform_player_attack now w bs fr with ⟨w1, bs1, fr1⟩
      dsimp only
      have h1 : bs1.penalty_mode = bs.penalty_mode := by
        have := ppa_bs_pm now w bs fr; rw [hp] at this; exact this
      have h2 : bs1.enemy_atk = bs.enemy_atk := by
        have := ppa_bs_atk now w bs fr; rw [hp] at this; exact this
      have h3 : w1.battle = w.battle := by
        have := ppa_battle now w bs fr; rw [hp] at this; exact this
      split
      · rcases hq : perform_enemy_attack now w1 bs1 fr1 with ⟨w2, bs2, fr2⟩
        have h4 : bs2 = bs1 := by
          have := pea_bs now w1 bs1 fr1; rw [hq] at this; exact this
        have h5 : w2.battle = w1.battle := by
          have := pea_battle now w1 bs1 fr1; rw [hq] at this; exact this
        dsimp only
        exact ⟨by rw [h4, h1], by rw [h4, h2], by rw [h5, h3]⟩
      · exact ⟨h1, h2, h3⟩
    · rcases hq : perform_enemy_attack now w bs fr with ⟨w1, bs1, fr1⟩
      dsimp only
      have h4 : bs1 = bs := by
        have := pea_bs now w bs fr; rw [hq] at this; exact this
      have h5 : w1.battle = w.battle := by
        have := pea_battle now w bs fr; rw [hq] at this; exact this
      split
      · rcases hp : perform_player_attack now w1 bs1 fr1 with ⟨w2, bs2, fr2⟩
        dsimp only
        have h1 : bs2.penalty_mode = bs1.penalty_mode := by
          have := ppa_bs_pm now w1 bs1 fr1; rw [hp] at this; exact this
        have h2 : bs2.enemy_atk = bs1.enemy_atk := by
          have := ppa_bs_atk now w1 bs1 fr1; rw [hp] at this; exact this
        have h3 : w2.battle = w1.battle := by
          have := ppa_battle now w1 bs1 fr1; rw [hp] at this; exact this
        exact ⟨by rw [h1, h4], by rw [h2, h4], by rw [h3, h5]⟩
      · exact ⟨by rw [h4], by rw [h4], h5⟩
  · -- Inventory used
    simp only [battle_turn_inner]
    rcases hq : perform_enemy_attack now w bs fr with ⟨w1, bs1, fr1⟩
    dsimp only
    have h4 : bs1 = bs := by
      have := pea_bs now w bs fr; rw [hq] at this; exact this
    have h5 : w1.battle = w.battle := by
      have := pea_battle now w bs fr; rw [hq] at this; exact this
    exact ⟨by rw [h4], by rw [h4], h5⟩
  · -- Run
    simp only [battle_turn_inner]
    split
    · rcases hq : perform_enemy_attack now (w.push_log "You started this, finish it!") bs fr
        with ⟨w1, bs1, fr1⟩
      dsimp only
      have h4 : bs1 = bs := by
        have := pea_bs now (w.push_log "You started this, finish it!") bs fr
        rw [hq] at this; exact this
      have h5 : w1.battle = w.battle := by
        have := pea_battle now (w.push_log "You started this, finish it!") bs fr
        rw [hq] at this
        rw [this, push_log_battle]
      exact ⟨by rw [h4], by rw [h4], h5⟩
    · split
      · exact ⟨rfl, rfl, push_log_battle _ _⟩
      · rcases hq : perform_enemy_attack now (w.push_log "Failed to flee!") bs (rand_next fr).2
          with ⟨w1, bs1, fr1⟩
        dsimp only
        have h4 : bs1 = bs := by
          have := pea_bs now (w.push_log "Failed to flee!") bs (rand_next fr).2
          rw [hq] at this; exact this
        have h5 : w1.battle = w.battle := by
          have := pea_battle now (w.push_log "Failed to flee!") bs (rand_next fr).2
          rw [hq] at this
          rw [this, push_log_battle]
        exact ⟨by rw [h4], by rw [h4], h5⟩
  · exact ⟨rfl, rfl, rfl⟩

theorem handle_win_battle (mk : MkRng) (w : World) (id : NpcId) (w2 : World)
    (h : handle_win mk w id = some w2) : w2.battle = w.battle := by
  unfold handle_win at h
  rcases id
  case MayorSol => cases h; rfl
  case Noor => cases h; rfl
  case Lamp => cases h; rfl
  case Random1 => cases h; rfl
  case Random2 => cases h; rfl
  case Random3 => cases h; rfl
  case Weeping1 => cases h; rfl
  case Weeping2 => cases h; rfl
  case Weeping3 => cases h; rfl
  case Weeping4 => cases h; rfl
  case Shab => cases h; rfl
  case Krad => cases h; rfl
  case Mah =>
    dsimp only at h
    split at h
    · cases h; rfl
    · split at h
      · cases h
      · cases h; rfl

theorem apply_battle_turn_eq (mk : MkRng) (now : Nat) (fr : List Nat) (w : World)
    (bs : BattleSession) (opt : Nat) (penalty : Bool) (hb : w.battle = some bs) :
    apply_battle_turn mk now fr w opt penalty =
      (if (battle_turn_inner now fr { w with battle := none }
            (if penalty then { bs with penalty_mode := true } else bs) opt).2.2.2 = true ∨
          (battle_turn_inner now fr { w with battle := none }
            (if penalty then { bs with penalty_mode := true } else bs) opt).2.1.enemy_hp ≤ 0 ∨
          (battle_turn_inner now fr { w with battle := none }
            (if penalty then { bs with penalty_mode := true } else bs) opt).1.player.hp ≤ 0 then
        (if (battle_turn_inner now fr { w with battle := none }
              (if penalty then { bs with penalty_mode := true } else bs) opt).2.1.enemy_hp ≤ 0 then
            handle_win mk (battle_turn_inner now fr { w with battle := none }
              (if penalty then { bs with penalty_mode := true } else bs) opt).1
              (battle_turn_inner now fr { w with battle := none }
                (if penalty then { bs with penalty_mode := true } else bs) opt).2.1.enemy_id
          else some (battle_turn_inner now fr { w with battle := none }
              (if penalty then { bs with penalty_mode := true } else bs) opt).1).map
          fun w3 => ({ w3 with state := GameState.Playing },
            (battle_turn_inner now fr { w with battle := none }
              (if penalty then { bs with penalty_mode := true } else bs) opt).2.2.1)
      else some ({ (battle_turn_inner now fr { w with battle := none }
            (if penalty then { bs with penalty_mode := true } else bs) opt).1 with
          battle := some (battle_turn_inner now fr { w with battle := none }
            (if penalty then { bs with penalty_mode := true } else bs) opt).2.1 },
          (battle_turn_inner now fr { w with battle := none }
            (if penalty then { bs with penalty_mode := true } else bs) opt).2.2.1)) := by
  simp only [apply_battle_turn, hb]

/-- C2 counterexample: in a Shab battle with a fresh player (speed 5 ≥
enemy speed 4), applying one turn with the penalty flag set (the enemy
attack deflects, so the battle continues) leaves a session whose
`penalty_mode` is still true; the initiative computation a later turn
with `penalty = false` would use yields enemy-first even though player
speed ≥ enemy speed — the override is not one-turn-only. -/
theorem penalty_not_one_turn_counterexample :
    ((apply_battle_turn mk0 0 [0] wBattle 2 true).bind fun r =>
      r.1.battle.map fun bs =>
        (bs.penalty_mode, battle_player_first bs (r.1.player.speed 0),
          decide (bs.enemy_speed ≤ r.1.player.speed 0)))
      = some (true, false, true) := by
  decide

/-- C2 (amended): within a turn, the player acts first exactly when
player speed ≥ enemy speed unless the session's penalty flag is set, in
which case the enemy acts first; a turn applied with `penalty = true`
sets the session flag, and the surviving session's flag equals
`old flag OR penalty` — it is never cleared for the remainder of the
battle, so a later turn applied with `penalty = false` still has the
enemy act first. -/
theorem battle_penalty_sticky (mk : MkRng) (now : Nat) (fr : List Nat) (w : World)
    (bs : BattleSession) (opt : Nat) (penalty : Bool) (hb : w.battle = some bs) :
    (battle_player_first (if penalty then { bs with penalty_mode := true } else bs)
        (w.player.speed now)
      = if bs.penalty_mode ∨ penalty = true then false
        else decide (bs.enemy_speed ≤ w.player.speed now)) ∧
    ((apply_battle_turn mk now fr w opt penalty).bind fun r =>
        r.1.battle.map fun bs2 => bs2.penalty_mode)
      = ((apply_battle_turn mk now fr w opt penalty).bind fun r =>
        r.1.battle.map fun _ => (bs.penalty_mode || penalty)) := by
  constructor
  · cases penalty <;> cases hpm : bs.penalty_mode <;>
      simp [battle_player_first, hpm]
  · rw [apply_battle_turn_eq mk now fr w bs opt penalty hb]
    have hpm2 : (if penalty then { bs with penalty_mode := true } else bs).penalty_mode
        = (bs.penalty_mode || penalty) := by
      cases penalty <;> simp
    set bs1 := (if penalty then { bs with penalty_mode := true } else bs) with hbs1
    set res := battle_turn_inner now fr { w with battle := none } bs1 opt with hres
    have hnone : res.1.battle = (none : Option BattleSession) :=
      (inner_invariants now fr { w with battle := none } bs1 opt).2.2
    have hpm1 : res.2.1.penalty_mode = bs1.penalty_mode :=
      (inner_invariants now fr { w with battle := none } bs1 opt).1
    split
    · split
      · rcases hw : handle_win mk res.1 res.2.1.enemy_id with _ | w3
        · rfl
        · have hbat := handle_win_battle _ _ _ _ hw
          show Option.map (fun bs2 => bs2.penalty_mode) w3.battle
            = Option.map (fun _ => (bs.penalty_mode || penalty)) w3.battle
          rw [hbat, hnone]
          rfl
      · show Option.map (fun bs2 => bs2.penalty_mode) res.1.battle
          = Option.map (fun _ => (bs.penalty_mode || penalty)) res.1.battle
        rw [hnone]
        rfl
    · show some res.2.1.penalty_mode = some (bs.penalty_mode || penalty)
      rw [hpm1, hpm2]

/-- C2 witness: the amended statement at the concrete Shab battle where
the penalized turn survives. -/
theorem battle_penalty_sticky_witness :
    (battle_player_first (if true then { bsShab with penalty_mode := true } else bsShab)
        (wBattle.player.speed 0)
      = if bsShab.penalty_mode ∨ true = true then false
        else decide (bsShab.enemy_speed ≤ wBattle.player.speed 0)) ∧
    ((apply_battle_turn mk0 0 [0] wBattle 2 true).bind fun r =>
        r.1.battle.map fun bs2 => bs2.penalty_mode)
      = ((apply_battle_turn mk0 0 [0] wBattle 2 true).bind fun r =>
        r.1.battle.map fun _ => (bsShab.penalty_mode || true)) :=
  battle_penalty_sticky mk0 0 [0] wBattle bsShab 2 true rfl

theorem inner_fight_monotone (now : Nat) (fr : List Nat) (w : World) (bs : BattleSession)
    (hpa : 1 ≤ w.player.attack now) (hea : 1 ≤ bs.enemy_atk) :
    (battle_turn_inner now fr w bs 1).1.player.hp ≤ w.player.hp ∧
    (battle_turn_inner now fr w bs 1).2.1.enemy_hp ≤ bs.enemy_hp := by
  have hdmg := one_le_calc_damage _ hpa
  have hdmge := one_le_calc_damage _ hea
  simp only [battle_turn_inner]
  split
  · rcases hp : perform_player_attack now w bs fr with ⟨w1, bs1, fr1⟩
    dsimp only
    have hw1 : w1.player = w.player := by
      have := ppa_player now w bs fr; rw [hp] at this; exact this
    have hbs1 : bs1 = if try_deflect (rand_next fr).1 bs.enemy_def then bs
        else { bs with enemy_hp := bs.enemy_hp - calc_damage (w.player.attack now) } := by
      have := ppa_bs now w bs fr; rw [hp] at this; exact this
    have hbs1hp : bs1.enemy_hp ≤ bs.enemy_hp := by
      rw [hbs1]; split
      · exact le_refl _
      · show bs.enemy_hp - calc_damage (w.player.attack now) ≤ bs.enemy_hp
        omega
    have hbs1atk : bs1.enemy_atk = bs.enemy_atk := by rw [hbs1]; split <;> rfl
    split
    · rcases hq : perform_enemy_attack now w1 bs1 fr1 with ⟨w2, bs2, fr2⟩
      dsimp only
      have hbs2 : bs2 = bs1 := by
        have := pea_bs now w1 bs1 fr1; rw [hq] at this; exact this
      have hw2 : w2.player = if try_deflect (rand_next fr1).1 (w1.player.defense now)
          then w1.player
          else { w1.player with hp := w1.player.hp - calc_damage bs1.enemy_atk } := by
        have := pea_player now w1 bs1 fr1; rw [hq] at this; exact this
      have hdmg2 : 1 ≤ calc_damage bs1.enemy_atk := by
        rw [hbs1atk]; exact hdmge
      constructor
      · rw [hw2]; split
        · rw [hw1]
        · show w1.player.hp - calc_damage bs1.enemy_atk ≤ w.player.hp
          rw [hw1]
          omega
      · rw [hbs2]; exact hbs1hp
    · exact ⟨by rw [hw1], hbs1hp⟩
  · rcases hq : perform_enemy_attack now w bs fr with ⟨w1, bs1, fr1⟩
    dsimp only
    have hbs1 : bs1 = bs := by
      have := pea_bs now w bs fr; rw [hq] at this; exact this
    have hw1p : w1.player = if try_deflect (rand_next fr).1 (w.player.defense now)
        then w.player
        else { w.player with hp := w.player.hp - calc_damage bs.enemy_atk } := by
      have := pea_player now w bs fr; rw [hq] at this; exact this
    have hw1hp : w1.player.hp ≤ w.player.hp := by
      rw [hw1p]; split
      · exact le_refl _
      · show w.player.hp - calc_damage bs.enemy_atk ≤ w.player.hp
        omega
    split
    · rcases hp : perform_player_attack now w1 bs1 fr1 with ⟨w2, bs2, fr2⟩
      dsimp only
      have hw2 : w2.player = w1.player := by
        have := ppa_player now w1 bs1 fr1; rw [hp] at this; exact this
      have hbs2 : bs2 = if try_deflect (rand_next fr1).1 bs1.enemy_def then bs1
          else { bs1 with enemy_hp := bs1.enemy_hp - calc_damage (w1.player.attack now) } := by
        have := ppa_bs now w1 bs1 fr1; rw [hp] at this; exact this
      have hatk1 : w1.player.attack now = w.player.attack now := by
        rw [hw1p]; split
        · rfl
        · exact attack_ignores_hp _ _ _
      have hdmg3 : 1 ≤ calc_damage (w1.player.attack now) := by
        rw [hatk1]; exact hdmg
      constructor
      · rw [hw2]; exact hw1hp
      · rw [hbs2]; split
        · rw [hbs1]
        · show bs1.enemy_hp - calc_damage (w1.player.attack now) ≤ bs.enemy_hp
          rw [hbs1]
          omega
    · exact ⟨hw1hp, by rw [hbs1]⟩

/-- C3: within a single Fight turn (attack values at least 1, as for
every battle the game creates), each attack either deflects and leaves
the defender's HP unchanged or strictly lowers it, both `enemy_hp` and
`player.hp` are non-increasing across the whole turn, and the battle
session is removed exactly when a side's HP has reached ≤ 0 or a flee
succeeded. -/
theorem fight_turn_spec (mk : MkRng) (now : Nat) (fr : List Nat) (w : World)
    (bs : BattleSession) (opt : Nat) (penalty : Bool)
    (hb : w.battle = some bs)
    (hpa : 1 ≤ w.player.attack now)
    (hea : 1 ≤ bs.enemy_atk) :
    (((try_deflect (rand_next fr).1 bs.enemy_def = true ∧
        (perform_player_attack now w bs fr).2.1.enemy_hp = bs.enemy_hp) ∨
      (try_deflect (rand_next fr).1 bs.enemy_def = false ∧
        (perform_player_attack now w bs fr).2.1.enemy_hp < bs.enemy_hp)) ∧
     (perform_player_attack now w bs fr).1.player.hp = w.player.hp) ∧
    (((try_deflect (rand_next fr).1 (w.player.defense now) = true ∧
        (perform_enemy_attack now w bs fr).1.player.hp = w.player.hp) ∨
      (try_deflect (rand_next fr).1 (w.player.defense now) = false ∧
        (perform_enemy_attack now w bs fr).1.player.hp < w.player.hp)) ∧
     (perform_enemy_attack now w bs fr).2.1.enemy_hp = bs.enemy_hp) ∧
    ((battle_turn_inner now fr w bs 1).1.player.hp ≤ w.player.hp ∧
     (battle_turn_inner now fr w bs 1).2.1.enemy_hp ≤ bs.enemy_hp) ∧
    (((apply_battle_turn mk now fr w opt penalty).map fun r => r.1.battle.isNone)
      = ((apply_battle_turn mk now fr w opt penalty).map fun _ =>
          ((battle_turn_inner now fr { w with battle := none }
              (if penalty then { bs with penalty_mode := true } else bs) opt).2.2.2
            || decide ((battle_turn_inner now fr { w with battle := none }
                (if penalty then { bs with penalty_mode := true } else bs) opt).2.1.enemy_hp ≤ 0)
            || decide ((battle_turn_inner now fr { w with battle := none }
                (if penalty then { bs with penalty_mode := true } else bs) opt).1.player.hp ≤ 0)))) := by
  have hdmg := one_le_calc_damage _ hpa
  have hdmge := one_le_calc_damage _ hea
  refine ⟨⟨?_, ?_⟩, ⟨?_, ?_⟩, inner_fight_monotone now fr w bs hpa hea, ?_⟩
  · rw [ppa_bs]
    by_cases hdef : try_deflect (rand_next fr).1 bs.enemy_def
    · rw [if_pos hdef]; exact Or.inl ⟨hdef, rfl⟩
    · rw [if_neg hdef]
      refine Or.inr ⟨by simpa using hdef, ?_⟩
      show bs.enemy_hp - calc_damage (w.player.attack now) < bs.enemy_hp
      omega
  · rw [ppa_player]
  · rw [pea_player]
    by_cases hdef : try_deflect (rand_next fr).1 (w.player.defense now)
    · rw [if_pos hdef]; exact Or.inl ⟨hdef, rfl⟩
    · rw [if_neg hdef]
      refine Or.inr ⟨by simpa using hdef, ?_⟩
      show w.player.hp - calc_damage bs.enemy_atk < w.player.hp
      omega
  · rw [pea_bs]
  · rw [apply_battle_turn_eq mk now fr w bs opt penalty hb]
    set bs1 := (if penalty then { bs with penalty_mode := true } else bs) with hbs1
    set res := battle_turn_inner now fr { w with battle := none } bs1 opt with hres
    have hnone : res.1.battle = (none : Option BattleSession) :=
      (inner_invariants now fr { w with battle := none } bs1 opt).2.2
    split
    · next hend =>
      have hexpr : (res.2.2.2 || decide (res.2.1.enemy_hp ≤ 0)
          || decide (res.1.player.hp ≤ 0)) = true := by
        rcases hend with h | h | h <;> simp [h]
      split
      · rcases hw : handle_win mk res.1 res.2.1.enemy_id with _ | w3
        · rfl
        · have hbat := handle_win_battle _ _ _ _ hw
          show some w3.battle.isNone = some (res.2.2.2 || decide (res.2.1.enemy_hp ≤ 0)
            || decide (res.1.player.hp ≤ 0))
          rw [hbat, hnone, hexpr]
          rfl
      · show some res.1.battle.isNone = some (res.2.2.2 || decide (res.2.1.enemy_hp ≤ 0)
          || decide (res.1.player.hp ≤ 0))
        rw [hnone, hexpr]
        rfl
    · next hend =>
      have hexpr : (res.2.2.2 || decide (res.2.1.enemy_hp ≤ 0)
          || decide (res.1.player.hp ≤ 0)) = false := by
        push_neg at hend
        obtain ⟨h1, h2, h3⟩ := hend
        simp [h1, h2, h3]
      show some (some res.2.1).isNone = some (res.2.2.2 || decide (res.2.1.enemy_hp ≤ 0)
        || decide (res.1.player.hp ≤ 0))
      rw [hexpr]
      rfl

/-- C3 witness: the Fight-turn properties at the concrete Shab battle
with two non-deflecting draws. -/
theorem fight_turn_spec_witness :
    (battle_turn_inner 0 [100, 100] wBattle bsShab 1).1.player.hp ≤ wBattle.player.hp :=
  (fight_turn_spec mk0 0 [100, 100] wBattle bsShab 1 false rfl (by decide) (by decide)).2.2.1.1

theorem add_temp_buff_hp (p : Player) (now : Nat) (a d s : Int) (dur : Nat) :
    (p.add_temp_buff now a d s dur).hp = p.hp := by
  unfold Player.add_temp_buff; split <;> rfl

theorem close_chest_player (w : World) (log : Option String) :
    (w.close_chest_dialogue log).player = w.player := by
  unfold World.close_chest_dialogue
  cases log <;> rfl

/-- C10: using a consumable — from the inventory overlay or through the
chest "Use now" choice — sets the player's HP to `min(hp + heal, max_hp)`
with no lower clamp, so a consumable with a sufficiently negative heal
(the generator's "Frozen tears" at 2 HP) drops the player to 0 HP or
below by itself. -/
theorem consumable_use_hp :
    (∀ (now : Nat) (w : World),
      w.player.inventory.tab = InvTab.Consumables →
      w.player.inventory.consumables ≠ [] →
      (w.use_or_unequip_or_equip now).player.hp =
        min (w.player.hp + (w.player.inventory.consumables.getD
            (min w.player.inventory.consumable_cursor
              (w.player.inventory.consumables.length - 1)) default).heal)
          w.player.max_hp) ∧
    (∀ (w : World) (room : Nat) (x y : Int) (cons : Consumable)
        (wpn : Option Equipment) (d : DialogueSession),
      w.dialogue = some d →
      d.awaiting = some (AwaitingChoice.Chest room x y (some cons) wpn) →
      (w.dialogue_choice 'B').player.hp = min (w.player.hp + cons.heal) w.player.max_hp) ∧
    ((wFragile.use_or_unequip_or_equip 0).player.hp = 0 ∧
      (wFragile.use_or_unequip_or_equip 0).player.hp ≤ 0) := by
  refine ⟨?_, ?_, by decide, by decide⟩
  · intro now w htab hne
    have hlen : 0 < w.player.inventory.consumables.length := List.length_pos.mpr hne
    have hidx : min w.player.inventory.consumable_cursor
        (w.player.inventory.consumables.length - 1) < w.player.inventory.consumables.length := by
      omega
    have hsel : w.player.inventory.selection
        = InvSelection.Consumable w.player.inventory.consumable_cursor := by
      simp only [Inventory.selection, htab]
      rw [if_neg (by simp [List.isEmpty_iff, hne])]
    have hget : w.player.inventory.consumables.get?
        (min w.player.inventory.consumable_cursor
          (w.player.inventory.consumables.length - 1))
        = some (w.player.inventory.consumables.getD
          (min w.player.inventory.consumable_cursor
            (w.player.inventory.consumables.length - 1)) default) := by
      rw [List.get?_eq_getElem?, List.getElem?_eq_getElem hidx,
        List.getD_eq_getElem _ _ hidx]
    have htake : w.player.inventory.take_selected_consumable
        = (some (w.player.inventory.consumables.getD
            (min w.player.inventory.consumable_cursor
              (w.player.inventory.consumables.length - 1)) default),
          { w.player.inventory with consumables := w.player.inventory.consumables.eraseIdx (min w.player.inventory.consumable_cursor (w.player.inventory.consumables.length - 1)) }) := by
      unfold Inventory.take_selected_consumable
      rw [if_neg (show ¬ w.player.inventory.tab ≠ InvTab.Consumables by simp [htab])]
      rw [if_neg (by simp [List.isEmpty_iff, hne])]
      dsimp only
      rw [hget]
    simp only [World.use_or_unequip_or_equip, hsel, htake]
    rw [push_log_player]
    rw [apply_ite Player.hp, add_temp_buff_hp, ite_self]
  · intro w room x y cons wpn d hd hawait
    have hBA : ¬ (Char.toUpper 'B' = 'A') := by decide
    have hBB : Char.toUpper 'B' = 'B' := by decide
    simp only [World.dialogue_choice, hd, Option.some_bind, hawait, if_neg hBA, if_pos hBB]
    rw [close_chest_player]

/-- C10 witness: the inventory-path HP formula at the concrete 2-HP
player holding one Frozen-tears consumable. -/
theorem consumable_use_hp_witness :
    (wFragile.use_or_unequip_or_equip 0).player.hp =
      min (wFragile.player.hp + (wFragile.player.inventory.consumables.getD
          (min wFragile.player.inventory.consumable_cursor
            (wFragile.player.inventory.consumables.length - 1)) default).heal)
        wFragile.player.max_hp :=
  consumable_use_hp.1 0 wFragile (by decide) (by decide)

/-! ### C1 — Quit semantics of the controller -/

theorem map_keep_true (o : Option (World × List Nat)) :
    ((o.map fun r => (r.1, r.2, true)).map fun r => r.2.2) ≠ some false := by
  cases o <;> simp

/-- Tagging the third component `true` never yields a `false` triple. -/
theorem map_keep_true2 (o : Option (World × List Nat)) (x : World) (l : List Nat) :
    (o.map fun r => (r.1, r.2, true)) ≠ some (x, l, false) := by
  cases o <;> simp

/-- C1 counterexample: in the Battle phase with the inventory overlay
open, a Quit action merely closes the overlay and `apply_action` returns
true (continue), so Quit does not make the controller stop in every
phase/overlay combination. -/
theorem quit_in_battle_inventory_counterexample :
    ((apply_action mk0 0 [] wBattleInv Action.Quit).map fun r => r.2.2) = some true := by
  decide

/-- C1 (amended): `apply_action` returns false exactly for a Quit action
delivered outside the one exception — the Battle phase with the
inventory overlay open, where Quit only closes the overlay and the
controller continues.  Every non-Quit action returns true. -/
theorem quit_only_stops (mk : MkRng) (now : Nat) (fr : List Nat) (w : World) (a : Action) :
    ((apply_action mk now fr w a).map fun r => r.2.2) = some false ↔
      (a = Action.Quit ∧ ¬ (w.state = GameState.Battle ∧ w.inventory_open = true)) := by
  cases hst : w.state <;> cases a <;> cases hio : w.inventory_open <;>
    simp [apply_action, apply_action_core, apply_title, apply_intro, apply_dialogue,
      apply_battle_phase, apply_playing, hst, hio, map_keep_true, map_keep_true2]
  all_goals
    intro x l
    split
    · exact map_keep_true2 _ x l
    · split <;> simp

/-- C1 witness: Quit in the Title phase stops the game. -/
theorem quit_only_stops_witness :
    ((apply_action mk0 0 [] wTitle Action.Quit).map fun r => r.2.2) = some false :=
  (quit_only_stops mk0 0 [] wTitle Action.Quit).mpr ⟨rfl, by decide⟩

end SunnyDays
